import Mathlib

/-!
Verification development for the joistapp NC punch-program core.

The definitions below are a shallow embedding of the TypeScript source:
  - src/lib/utils/manufacturing.ts  (roundHalf, calculateBoltOffset,
    getSpanTableRecommendation, isBearerProfile, isJoistProfile)
  - src/lib/constants.ts            (MANUFACTURING_CONSTANTS)
  - src/lib/nc-generator.ts         (NCFileGenerator and its generators)
  - the clash detector (detectClashes) and the punch-dimension registry.

JavaScript numbers are modelled as rationals; JS for and while loops with a
positive step are modelled as maps over an explicit iteration count; JS
Array.prototype.sort with the numeric comparator is a stable sort, modelled
by insertion sort on a non-strict key order.
-/

/-- The JS Math.round: round half towards positive infinity. -/
def jsRound (x : ℚ) : ℤ := Int.floor (x + 1/2)

/-- The source roundHalf: Math.round(value * 2) / 2, rounding to 0.5 mm. -/
def roundHalf (x : ℚ) : ℚ := ((jsRound (x * 2) : ℚ)) / 2

/-- The JS Math.floor on rationals. -/
def jsFloor (x : ℚ) : ℤ := Int.floor x

/-- The JS Math.ceil on rationals. -/
def jsCeil (x : ℚ) : ℤ := Int.ceil x

/-- Rendering of a half-millimetre-quantised JS number by template strings:
integers print without a decimal point, half values print with a trailing .5.
Values that are not multiples of one half do not occur at the call sites
(every punch position goes through roundHalf first); for those this function
falls back to the integer part, which the source never exercises. -/
def formatHalf (q : ℚ) : String :=
  let sign := if q < 0 then "-" else ""
  let a := |q|
  if a.den = 1 then sign ++ toString a.num.toNat
  else sign ++ toString (a.num.toNat / a.den) ++ ".5"

-- MANUFACTURING_CONSTANTS (constants.ts / the punch-dimension module copy,
-- which also carries the legacy joist dimple constants).

def END_EXCLUSION_BASE : ℚ := 300
def MIN_CLEARANCE : ℚ := 50
def WEB_TAB_CLEARANCE : ℚ := 22.5
def SERVICE_CLEARANCE : ℚ := 250
def DIMPLE_SPACING_BEARER : ℚ := 450
def DIMPLE_SPACING_JOIST : ℚ := 409.5
def DIMPLE_START_BEARER : ℚ := 479.5
def DIMPLE_START_JOIST : ℚ := 509.5
def SERVICE_HOLE_SPACING : ℚ := 650
def POSITION_TOLERANCE : ℚ := 10
def SPACING_TOLERANCE_PERCENT : ℚ := 0.15
def MIN_SPACING_TOLERANCE : ℚ := 100
def FLANGE_HEIGHT : ℚ := 63
def JOIST_FLANGE_HEIGHT : ℚ := 59
def PROFILE_THICKNESS : ℚ := 1.8
def DEFAULT_HOLE_DIAMETER : ℚ := 200
def DEFAULT_HOLE_EDGE_DISTANCE : ℚ := 902.3
def END_BOLT_POSITION : ℚ := 30
def CORNER_BRACKET_POSITION : ℚ := 131
def FIRST_STUB_POSITION : ℚ := 331

/-- The SPAN_LIMITS table, keyed by the kPa rating string. -/
def spanLimitFor (kpa : String) : ℚ := if kpa == "2.5" then 11750 else 9300

/-- The BOLT_OFFSET_PATTERN lookup: calculateBoltOffset(index) in
utils/manufacturing.ts returns pattern[index % 2] of [-29.5, 29.5]. -/
def calculateBoltOffset (index : ℕ) : ℚ := if index % 2 = 0 then -29.5 else 29.5

/-- The isBearerProfile check from utils/manufacturing.ts. -/
def isBearerProfile (profileType : String) : Bool :=
  profileType == "Bearer Single" || profileType == "Bearer Box"

/-- The isJoistProfile check from utils/manufacturing.ts. -/
def isJoistProfile (profileType : String) : Bool :=
  profileType == "Joist Single" || profileType == "Joist Box"

/-- The SpanTableRecommendation record returned by the advisor. -/
structure SpanTableRecommendation where
  profileType : String
  joistSpacing : ℚ
  exceedsLimit : Bool
deriving DecidableEq, Repr

/-- The getSpanTableRecommendation if-chain from utils/manufacturing.ts,
transcribed arm by arm.  Any rating other than the literal 2.5 takes the
else branch (the 5.0 table), as in the source. -/
def getSpanTableRecommendation (length : ℚ) (kpaRating : String) : SpanTableRecommendation :=
  if kpaRating == "2.5" then
    if length ≤ 6800 then ⟨"Joist Single", 600, false⟩
    else if length ≤ 7600 then ⟨"Joist Single", 500, false⟩
    else if length ≤ 8600 then ⟨"Joist Single", 400, false⟩
    else if length ≤ 9550 then ⟨"Joist Single", 300, false⟩
    else if length ≤ 9100 then ⟨"Joist Box", 600, false⟩
    else if length ≤ 9750 then ⟨"Joist Box", 500, false⟩
    else if length ≤ 10600 then ⟨"Joist Box", 400, false⟩
    else if length ≤ 11750 then ⟨"Joist Box", 300, false⟩
    else ⟨"Joist Box", 300, true⟩
  else
    if length ≤ 4500 then ⟨"Joist Single", 600, false⟩
    else if length ≤ 5100 then ⟨"Joist Single", 500, false⟩
    else if length ≤ 5850 then ⟨"Joist Single", 400, false⟩
    else if length ≤ 7000 then ⟨"Joist Single", 300, false⟩
    else if length ≤ 7700 then ⟨"Joist Box", 500, false⟩
    else if length ≤ 8350 then ⟨"Joist Box", 400, false⟩
    else if length ≤ 9300 then ⟨"Joist Box", 300, false⟩
    else ⟨"Joist Box", 300, true⟩

/-- One row of the span table as the specification documents it. -/
structure SpanRow where
  limit : ℚ
  profileType : String
  joistSpacing : ℚ
deriving DecidableEq, Repr

/-- The documented 2.5 kPa table, in its documented top-to-bottom order. -/
def spanTable25 : List SpanRow :=
  [⟨6800, "Joist Single", 600⟩, ⟨7600, "Joist Single", 500⟩,
   ⟨8600, "Joist Single", 400⟩, ⟨9550, "Joist Single", 300⟩,
   ⟨9100, "Joist Box", 600⟩, ⟨9750, "Joist Box", 500⟩,
   ⟨10600, "Joist Box", 400⟩, ⟨11750, "Joist Box", 300⟩]

/-- The documented 5.0 kPa table, in its documented top-to-bottom order. -/
def spanTable50 : List SpanRow :=
  [⟨4500, "Joist Single", 600⟩, ⟨5100, "Joist Single", 500⟩,
   ⟨5850, "Joist Single", 400⟩, ⟨7000, "Joist Single", 300⟩,
   ⟨7700, "Joist Box", 500⟩, ⟨8350, "Joist Box", 400⟩,
   ⟨9300, "Joist Box", 300⟩]

/-- First-match interpreter over an ordered span table, following the wording
of the specification: the first row whose limit bounds the length wins, and
when no row matches the advisor answers Box 300 with the exceeds flag set. -/
def firstMatchingRow (rows : List SpanRow) (length : ℚ) : SpanTableRecommendation :=
  match rows with
  | [] => ⟨"Joist Box", 300, true⟩
  | r :: rs =>
    if length ≤ r.limit then ⟨r.profileType, r.joistSpacing, false⟩
    else firstMatchingRow rs length

-- Data model (types/form-types.ts and types/manufacturing.ts).

/-- The PunchStationType union of station name literals, as an enumeration.
The generator also produces the LARGE SERVICE HOLE literal, so it is
included alongside the members listed in form-types.ts. -/
inductive PunchStationType where
  | boltHole
  | dimple
  | webTab
  | mServiceHole
  | smallServiceHole
  | largeServiceHole
  | service
  | cornerBrackets
deriving DecidableEq, Repr

/-- Station literal carried by each PunchStationType member. -/
def stationName : PunchStationType → String
  | .boltHole => "BOLT HOLE"
  | .dimple => "DIMPLE"
  | .webTab => "WEB TAB"
  | .mServiceHole => "M SERVICE HOLE"
  | .smallServiceHole => "SMALL SERVICE HOLE"
  | .largeServiceHole => "LARGE SERVICE HOLE"
  | .service => "SERVICE"
  | .cornerBrackets => "CORNER BRACKETS"

/-- A punch record: position, station, active flag. -/
structure Punch where
  position : ℚ
  type : PunchStationType
  active : Bool
deriving DecidableEq, Repr

/-- Shorthand for the generator pushes, which always set active = true. -/
def mkPunch (pos : ℚ) (t : PunchStationType) : Punch := ⟨pos, t, true⟩

/-- The NCCalculations record of nc-generator.ts. -/
structure NCCalculations where
  boltHoles : List Punch
  webHoles : List Punch
  serviceHoles : List Punch
  dimples : List Punch
  stubs : List Punch
  endExclusion : ℚ
  lengthMod : ℚ
  openingCentres : ℚ
  holeQty : ℚ
  tabOffset : ℚ
  flange : ℚ
  thickness : ℚ
  holeDia : ℚ
  holeEdgeDistance : ℚ
deriving DecidableEq, Repr

/-- One punch-station toggle.  The optional spacing and customPositions
fields of the source record are never read by the embedded core functions
and are omitted. -/
structure PunchStationSettings where
  station : String
  enabled : Bool
deriving DecidableEq, Repr

/-- The ProfileData record.  joistBox is an extra field the generator reads
from profileData in the source; optional numeric fields are Options and the
optional stubPositions list is passed through as-is (an absent list and an
empty list behave identically at every use site). -/
structure ProfileData where
  profileType : String
  profileHeight : ℚ
  length : ℚ
  joistLength : Option ℚ
  joistSpacing : ℚ
  stubSpacing : ℚ
  stubPositions : List ℚ
  stubsEnabled : Bool
  holeType : String
  holeSpacing : ℚ
  punchStations : List PunchStationSettings
  endBoxJoist : Bool
  screensEnabled : Bool
  joistBox : Bool
  kpaRating : Option String
deriving DecidableEq, Repr

/-- The ExportData record. -/
structure ExportData where
  quantity : ℕ
  programName : String
deriving DecidableEq, Repr

/-- The PlatformData record (received and ignored by updateCalculations). -/
structure PlatformData where
  width : ℚ
  span : ℚ
  bays : ℚ
  pitch : ℚ
deriving DecidableEq, Repr

/-- The punchStations enable check used throughout the generators:
a missing array counts as enabled, otherwise some entry must match the
station literal and be enabled. -/
def isStationEnabled (ps : Option (List PunchStationSettings)) (name : String) : Bool :=
  match ps with
  | none => true
  | some l => l.any (fun s => s.station == name && s.enabled)

/-- The three-way service-hole station check used by the generators. -/
def isServiceHoleStationEnabled (ps : Option (List PunchStationSettings)) : Bool :=
  match ps with
  | none => true
  | some l => l.any (fun s =>
      (s.station == "M SERVICE HOLE" || s.station == "SMALL SERVICE HOLE" ||
       s.station == "LARGE SERVICE HOLE") && s.enabled)

-- Loop helpers.  A JS loop for (pos = start; pos <= bound; pos += step)
-- with positive step runs once for every k with start + k*step <= bound;
-- the count below is that number of iterations, and the loop body sees the
-- positions start + k*step in order.

/-- Iteration count of for (pos = start; pos <= bound; pos += step), step positive. -/
def loopCountLe (start step bound : ℚ) : ℕ :=
  if start ≤ bound then (Int.floor ((bound - start) / step)).toNat + 1 else 0

/-- Position sequence of for (pos = start; pos <= bound; pos += step), step positive. -/
def forLoopLe (start step bound : ℚ) : List ℚ :=
  (List.range (loopCountLe start step bound)).map (fun k : ℕ => start + (k : ℚ) * step)

/-- Iteration count of for (pos = start; pos < bound; pos += step), step positive. -/
def loopCountLt (start step bound : ℚ) : ℕ :=
  if start < bound then (Int.ceil ((bound - start) / step)).toNat else 0

/-- Position sequence of for (pos = start; pos < bound; pos += step), step positive. -/
def forLoopLt (start step bound : ℚ) : List ℚ :=
  (List.range (loopCountLt start step bound)).map (fun k : ℕ => start + (k : ℚ) * step)

/-- Key order used to model the stable JS numeric sort on punches. -/
def posLe (a b : Punch) : Prop := a.position ≤ b.position

instance : DecidableRel posLe := fun a b => inferInstanceAs (Decidable (a.position ≤ b.position))

instance : IsTotal Punch posLe := ⟨fun a b => le_total a.position b.position⟩

instance : IsTrans Punch posLe := ⟨fun _ _ _ h h' => le_trans h h'⟩

/-- Stable sort of a punch list by position, the model of
punches.sort((a, b) => a.position - b.position). -/
def sortPunches (l : List Punch) : List Punch := List.insertionSort posLe l

/-- Stable sort of a plain position list, the model of
positions.sort((a, b) => a - b). -/
def sortPositions (l : List ℚ) : List ℚ := List.insertionSort (· ≤ ·) l

-- nc-generator.ts private helpers.

/-- The getHoleDiameter switch; unknown literals fall to DEFAULT_HOLE_DIAMETER. -/
def getHoleDiameter (holeType : String) : ℚ :=
  if holeType == "50mm" then 50
  else if holeType == "200mm" || holeType == "200 Round" then 200
  else if holeType == "110 Round" then 110
  else if holeType == "200mm x 400mm" || holeType == "200 x 400 Oval" then 400
  else if holeType == "115 Round" || holeType == "115mm" then 115
  else DEFAULT_HOLE_DIAMETER

/-- The getServiceHoleType switch; unknown literals fall to M SERVICE HOLE. -/
def getServiceHoleType (holeType : String) : PunchStationType :=
  if holeType == "115 Round" || holeType == "115mm" then .smallServiceHole
  else if holeType == "200mm x 400mm" || holeType == "200 x 400 Oval" then .largeServiceHole
  else .mServiceHole

/-- Service-hole list of generateCoordinatedBearerHoles: symmetric holes at
the openingCentres spacing.  The source guard maxServiceHoles >= 1 appears
here as the empty-list branch (pushing nothing and appending the empty list
coincide). -/
def bearerServiceHolesList (openingCentres length : ℚ) (holeType : String) : List Punch :=
  let serviceHoleSpacing := openingCentres
  let availableLength := length - 2 * serviceHoleSpacing
  let maxServiceHoles := jsFloor (availableLength / serviceHoleSpacing)
  if maxServiceHoles ≥ 1 then
    let totalServiceSpan := ((maxServiceHoles : ℚ) - 1) * serviceHoleSpacing
    let serviceStart := serviceHoleSpacing + (availableLength - totalServiceSpan) / 2
    let t := getServiceHoleType holeType
    (List.range maxServiceHoles.toNat).map
      (fun i : ℕ => mkPunch (roundHalf (serviceStart + (i : ℚ) * serviceHoleSpacing)) t)
  else []

/-- Web-tab list of generateCoordinatedBearerHoles: exact joist-spacing
intervals from the first joist position, kept while at most the last one. -/
def bearerWebTabsList (length joistSpacing : ℚ) : List Punch :=
  let startOffset := joistSpacing
  let endOffset := length - joistSpacing
  let numWebTabs := jsFloor ((endOffset - startOffset) / joistSpacing) + 1
  (List.range numWebTabs.toNat).filterMap (fun i : ℕ =>
    let position := startOffset + (i : ℚ) * joistSpacing
    if position ≤ endOffset then some (mkPunch (roundHalf position) .webTab) else none)

/-- The generateCoordinatedBearerHoles body: symmetric service holes from the
openingCentres spacing, then web tabs at exact joist-spacing intervals. -/
def generateCoordinatedBearerHoles (c : NCCalculations) (length joistSpacing : ℚ)
    (holeType : String) (punchStations : Option (List PunchStationSettings)) : NCCalculations :=
  let isWebTabEnabled := isStationEnabled punchStations "WEB TAB"
  let isServiceHoleEnabled := isServiceHoleStationEnabled punchStations
  let c :=
    if holeType != "No Holes" && isServiceHoleEnabled then
      { c with serviceHoles := c.serviceHoles ++
          bearerServiceHolesList c.openingCentres length holeType }
    else c
  if isWebTabEnabled then
    { c with webHoles := c.webHoles ++ bearerWebTabsList length joistSpacing }
  else c

/-- One iteration of the paired-bolt forEach of generateBearerHoles: the
alternating offset bolt is added unless a bolt already sits within the
position tolerance or the position leaves the 50 mm interior. -/
def bearerBoltStep (length : ℚ) (c : NCCalculations) (iw : ℕ × Punch) : NCCalculations :=
  let offset := calculateBoltOffset iw.1
  let expectedBoltPosition := iw.2.position + offset
  let existingBolt := c.boltHoles.any
    (fun b => decide (|b.position - expectedBoltPosition| < POSITION_TOLERANCE))
  if !existingBolt && decide (expectedBoltPosition > MIN_CLEARANCE) &&
      decide (expectedBoltPosition < length - MIN_CLEARANCE) then
    { c with boltHoles := c.boltHoles ++ [mkPunch (roundHalf expectedBoltPosition) .boltHole] }
  else c

/-- The generateBearerHoles body: end bolts, the 450 mm dimple ladder,
then either the joist-box block (double SERVICE hits and centred dimples)
or the normal block (coordinated holes, paired bolts over the sorted web
tabs with the alternating offset, corner brackets and user stubs). -/
def generateBearerHoles (c : NCCalculations) (length joistSpacing : ℚ) (holeType : String)
    (stubPositions : List ℚ) (_stubsEnabled : Bool)
    (punchStations : Option (List PunchStationSettings)) (joistBox : Bool) : NCCalculations :=
  let isBoltHoleEnabled := isStationEnabled punchStations "BOLT HOLE"
  let isServiceEnabled := isStationEnabled punchStations "SERVICE"
  let c :=
    if isBoltHoleEnabled && !joistBox then
      { c with boltHoles := c.boltHoles ++
          [mkPunch END_BOLT_POSITION .boltHole, mkPunch (length - END_BOLT_POSITION) .boltHole] }
    else c
  let isDimpleEnabled := isStationEnabled punchStations "DIMPLE"
  let c :=
    if isDimpleEnabled then
      let ladder := (forLoopLe DIMPLE_START_BEARER DIMPLE_SPACING_BEARER (length - 270.5)).map
        (fun p => mkPunch p .dimple)
      { c with dimples := c.dimples ++ ladder }
    else c
  if joistBox && isServiceEnabled then
    let c :=
      if isDimpleEnabled then
        { c with dimples := c.dimples ++
            [mkPunch END_BOLT_POSITION .dimple, mkPunch (length - END_BOLT_POSITION) .dimple] }
      else c
    let startOffset := joistSpacing
    let endOffset := length - joistSpacing
    let c := (forLoopLe startOffset joistSpacing endOffset).foldl (fun c currentPos =>
        let c := { c with stubs := c.stubs ++
            [mkPunch (roundHalf (currentPos - 12)) .service,
             mkPunch (roundHalf (currentPos + 12)) .service] }
        if isDimpleEnabled && decide (currentPos > MIN_CLEARANCE) &&
            decide (currentPos < length - MIN_CLEARANCE) then
          { c with dimples := c.dimples ++ [mkPunch (roundHalf currentPos) .dimple] }
        else c) c
    { c with stubs := c.stubs ++
        [mkPunch 131 .service, mkPunch (length - 131) .service] }
  else
    let c := generateCoordinatedBearerHoles c length joistSpacing holeType punchStations
    let c :=
      if isBoltHoleEnabled then
        let sortedWebTabs := sortPunches (c.webHoles.filter (·.active))
        sortedWebTabs.enum.foldl (bearerBoltStep length) c
      else c
    if isServiceEnabled then
      let c := { c with stubs := c.stubs ++
          [mkPunch 131 .service, mkPunch (length - 131) .service] }
      { c with stubs := c.stubs ++
          stubPositions.filterMap (fun pos =>
            if 0 < pos ∧ pos < length then some (mkPunch pos .service) else none) }
    else c

/-- The joist dimple pattern: first dimple at 75, paired dimples around each
600 mm base while the base stays below length - 75, and a final dimple at
length - 75. -/
def joistDimplePattern (length : ℚ) : List ℚ :=
  let pairs := ((List.range (loopCountLt 600 600 (length - 75))).map (fun k : ℕ =>
    let basePos : ℚ := 600 + (k : ℚ) * 600
    [basePos - 75] ++ (if basePos + 75 < length - 75 then [basePos + 75] else []))).flatten
  [75] ++ pairs ++ [length - 75]

/-- The JS reduce in generateWebTabsBetweenServiceHoles that finds the
service hole nearest to the ideal position (first element as initial
accumulator, strict improvement required). -/
def jsReduceNearest (ideal : ℚ) (h : ℚ) (t : List ℚ) : ℚ :=
  t.foldl (fun nearest servicePos =>
    if |ideal - servicePos| < |ideal - nearest| then servicePos else nearest) h

/-- The gap scan in generateWebTabsBetweenServiceHoles: over each adjacent
pair of service holes, keep the qualifying gap centre closest to the ideal
position.  The accumulator carries the best position with its score. -/
def bestGapCenter (servicePositions webTabPositions : List ℚ)
    (ideal minWebTabSpacing : ℚ) : Option ℚ :=
  let scan := (servicePositions.zip servicePositions.tail).foldl (fun best lr =>
    let gapCenter := (lr.1 + lr.2) / 2
    let clearanceFromLeft := gapCenter - lr.1
    let clearanceFromRight := lr.2 - gapCenter
    if clearanceFromLeft ≥ 150 ∧ clearanceFromRight ≥ 150 then
      let distanceFromIdeal := |gapCenter - ideal|
      let better : Bool := match best with
        | none => decide (distanceFromIdeal < 650)
        | some pr => decide (distanceFromIdeal < 650) && decide (distanceFromIdeal < pr.2)
      let tooClose := webTabPositions.any
        (fun pos => decide (|pos - gapCenter| < minWebTabSpacing * 0.8))
      if better && !tooClose then some (gapCenter, distanceFromIdeal) else best
    else best) none
  scan.map Prod.fst

/-- The web-tab placement loop of generateWebTabsBetweenServiceHoles: for
each ideal slot between the first and last service hole, accept the ideal
position when it clears every service hole by 150 mm, otherwise try the best
gap centre, otherwise try shifting off the nearest conflicting hole, and
skip the slot when nothing fits. -/
def placeJoistWebTabs (servicePositions : List ℚ) (minWebTabSpacing maxWebTabSpacing : ℚ) : List ℚ :=
  match servicePositions with
  | [] => []
  | s0 :: rest =>
    let startPos := s0
    let endPos := (s0 :: rest).getLastD s0
    let availableLength := endPos - startPos
    if availableLength < minWebTabSpacing then []
    else
      let minWebTabs := (jsCeil (availableLength / maxWebTabSpacing)).toNat
      let idealSpacing := availableLength / ((minWebTabs : ℚ) + 1)
      (List.range minWebTabs).foldl (fun webTabPositions (i0 : ℕ) =>
        let i := i0 + 1
        let idealPosition := startPos + (i : ℚ) * idealSpacing
        let hasClearance := (s0 :: rest).all (fun s => decide (|idealPosition - s| ≥ 150))
        if hasClearance then webTabPositions ++ [idealPosition]
        else
          let conflictingHole := jsReduceNearest idealPosition s0 rest
          match bestGapCenter (s0 :: rest) webTabPositions idealPosition minWebTabSpacing with
          | some bestPosition => webTabPositions ++ [bestPosition]
          | none =>
            let shiftedRight := conflictingHole + 150
            let shiftedLeft := conflictingHole - 150
            let rightHasClearance := decide (shiftedRight ≤ endPos) &&
              (s0 :: rest).all (fun s => decide (|shiftedRight - s| ≥ 150)) &&
              !(webTabPositions.any (fun pos => decide (|pos - shiftedRight| < minWebTabSpacing * 0.8)))
            let leftHasClearance := decide (shiftedLeft ≥ startPos) &&
              (s0 :: rest).all (fun s => decide (|shiftedLeft - s| ≥ 150)) &&
              !(webTabPositions.any (fun pos => decide (|pos - shiftedLeft| < minWebTabSpacing * 0.8)))
            if rightHasClearance && (!leftHasClearance ||
                decide (|shiftedRight - idealPosition| ≤ |shiftedLeft - idealPosition|)) then
              webTabPositions ++ [shiftedRight]
            else if leftHasClearance then webTabPositions ++ [shiftedLeft]
            else webTabPositions) []

/-- The generateWebTabsBetweenServiceHoles entry: append the placed tabs,
rounded, to the web-hole list. -/
def generateWebTabsBetweenServiceHoles (c : NCCalculations) (servicePositions : List ℚ)
    (minWebTabSpacing maxWebTabSpacing : ℚ) : NCCalculations :=
  let placed := (placeJoistWebTabs servicePositions minWebTabSpacing maxWebTabSpacing).map
    (fun p => mkPunch (roundHalf p) .webTab)
  { c with webHoles := c.webHoles ++ placed }

/-- The generateServiceHolesWithWebTabs body: symmetric service holes over
the available span, then web tabs between them when the station is enabled.
The source defaults an absent holeType to the 200mm literal. -/
def generateServiceHolesWithWebTabs (c : NCCalculations) (startPos endPos serviceHoleSpacing
    minWebTabSpacing maxWebTabSpacing : ℚ) (punchStations : Option (List PunchStationSettings))
    (holeType : String) : NCCalculations :=
  let isWebTabEnabled := isStationEnabled punchStations "WEB TAB"
  let availableLength := endPos - startPos
  let maxServiceHoles := jsFloor (availableLength / serviceHoleSpacing)
  if maxServiceHoles < 1 then c
  else
    let totalServiceSpan := ((maxServiceHoles : ℚ) - 1) * serviceHoleSpacing
    let serviceStart := startPos + (availableLength - totalServiceSpan) / 2
    let serviceHoleType := getServiceHoleType (if holeType == "" then "200mm" else holeType)
    let servicePositions := (List.range maxServiceHoles.toNat).map
      (fun i : ℕ => roundHalf (serviceStart + (i : ℚ) * serviceHoleSpacing))
    let c := { c with serviceHoles := c.serviceHoles ++
        servicePositions.map (fun p => mkPunch p serviceHoleType) }
    if isWebTabEnabled then
      generateWebTabsBetweenServiceHoles c servicePositions minWebTabSpacing maxWebTabSpacing
    else c

/-- The generateWebTabsOnly body: symmetric web tabs at the spacing derived
from the maximum-spacing constraint. -/
def generateWebTabsOnly (c : NCCalculations) (startPos endPos _minSpacing maxSpacing : ℚ) :
    NCCalculations :=
  let availableLength := endPos - startPos
  let minWebTabs := jsCeil (availableLength / maxSpacing)
  let numWebTabs := max 1 minWebTabs
  let actualSpacing := availableLength / ((numWebTabs : ℚ) + 1)
  let tabs := (List.range numWebTabs.toNat).map
    (fun i0 : ℕ => mkPunch (roundHalf (startPos + ((i0 : ℚ) + 1) * actualSpacing)) .webTab)
  { c with webHoles := c.webHoles ++ tabs }

/-- The generateCoordinatedJoistHoles dispatcher: no web tabs means no
coordinated generation at all; otherwise service holes with web tabs, or
web tabs alone when service holes are off. -/
def generateCoordinatedJoistHoles (c : NCCalculations) (length : ℚ) (holeType : String)
    (punchStations : Option (List PunchStationSettings)) : NCCalculations :=
  let isWebTabEnabled := isStationEnabled punchStations "WEB TAB"
  let isServiceHoleEnabled := isServiceHoleStationEnabled punchStations
  if !isWebTabEnabled then c
  else
    let availableLength := length - c.endExclusion
    let startOffset := c.endExclusion / 2
    let serviceHoleSpacing := c.openingCentres
    let minWebTabSpacing : ℚ := 1000
    let maxWebTabSpacing : ℚ := 2600
    if holeType != "No Holes" && isServiceHoleEnabled then
      generateServiceHolesWithWebTabs c startOffset (startOffset + availableLength)
        serviceHoleSpacing minWebTabSpacing maxWebTabSpacing punchStations holeType
    else if isWebTabEnabled then
      generateWebTabsOnly c startOffset (startOffset + availableLength)
        minWebTabSpacing maxWebTabSpacing
    else c

/-- The generateJoistHoles body: end bolts, the paired-offset dimple
pattern, coordinated web tabs and service holes, bolts centred on web tabs,
and corner brackets.  The endBox argument is received and ignored, as in
the source. -/
def generateJoistHoles (c : NCCalculations) (length : ℚ) (holeType : String) (_endBox : Bool)
    (punchStations : Option (List PunchStationSettings)) : NCCalculations :=
  let isBoltHoleEnabled := isStationEnabled punchStations "BOLT HOLE"
  let isDimpleEnabled := isStationEnabled punchStations "DIMPLE"
  let c :=
    if isBoltHoleEnabled then
      { c with boltHoles := c.boltHoles ++ [mkPunch 30 .boltHole, mkPunch (length - 30) .boltHole] }
    else c
  let c :=
    if isDimpleEnabled then
      { c with dimples := c.dimples ++ (joistDimplePattern length).map (fun p => mkPunch p .dimple) }
    else c
  let c := generateCoordinatedJoistHoles c length holeType punchStations
  let c :=
    if isBoltHoleEnabled then
      let webTabPositions := (c.webHoles.filter (·.active)).map (·.position)
      webTabPositions.foldl (fun c webPos =>
        let existingBolt := c.boltHoles.any
          (fun b => decide (|b.position - webPos| < POSITION_TOLERANCE))
        if !existingBolt && decide (webPos > 50) && decide (webPos < length - 50) then
          { c with boltHoles := c.boltHoles ++ [mkPunch (roundHalf webPos) .boltHole] }
        else c) c
    else c
  let isCornerBracketsEnabled := isStationEnabled punchStations "CORNER BRACKETS"
  if isCornerBracketsEnabled then
    { c with stubs := c.stubs ++ [mkPunch 131 .cornerBrackets, mkPunch (length - 131) .cornerBrackets] }
  else c

/-- The generateScreensBearerHoles body: end bolts and the 450 mm dimple
ladder, then either the screens joist-box block (triple SERVICE hits with
centred bolts) or the screens web-tab block (fixed 475 mm edge tabs with
the alternating bolts) plus the screens stub block, and finally the screens
service-hole distribution. -/
def generateScreensBearerHoles (c : NCCalculations) (length joistSpacing : ℚ)
    (holeType : String) (stubPositions : List ℚ) (stubsEnabled : Bool)
    (punchStations : Option (List PunchStationSettings)) (joistBox : Bool) : NCCalculations :=
  let isBoltHoleEnabled := isStationEnabled punchStations "BOLT HOLE"
  let isWebTabEnabled := isStationEnabled punchStations "WEB TAB"
  let isDimpleEnabled := isStationEnabled punchStations "DIMPLE"
  let isServiceHoleEnabled := isServiceHoleStationEnabled punchStations
  let isServiceEnabled := isStationEnabled punchStations "SERVICE"
  let c :=
    if isBoltHoleEnabled then
      { c with boltHoles := c.boltHoles ++ [mkPunch 30 .boltHole, mkPunch (length - 30) .boltHole] }
    else c
  let c :=
    if isDimpleEnabled then
      let ladder := (forLoopLe 479.5 450 (length - 270.5)).map (fun p => mkPunch p .dimple)
      { c with dimples := c.dimples ++ ladder }
    else c
  let c :=
    if joistBox && isServiceEnabled then
      let firstWebTab : ℚ := 475
      let lastWebTab := length - 475
      let workingLength := lastWebTab - firstWebTab
      let joistPositions := [firstWebTab] ++
        (if workingLength > 0 then forLoopLt (firstWebTab + joistSpacing) joistSpacing lastWebTab
         else []) ++ [lastWebTab]
      let c := joistPositions.foldl (fun c pos =>
        let c := { c with stubs := c.stubs ++
            [mkPunch (roundHalf (pos - 12)) .service, mkPunch (roundHalf pos) .service,
             mkPunch (roundHalf (pos + 12)) .service] }
        if isBoltHoleEnabled && decide (pos > 50) && decide (pos < length - 50) then
          { c with boltHoles := c.boltHoles ++ [mkPunch (roundHalf pos) .boltHole] }
        else c) c
      { c with stubs := c.stubs ++ [mkPunch 131 .service, mkPunch (length - 131) .service] }
    else
      let c :=
        if isWebTabEnabled then
          let firstWebTab : ℚ := 475
          let lastWebTab := length - 475
          let workingLength := lastWebTab - firstWebTab
          let webTabPositions := [firstWebTab] ++
            (if workingLength > 0 then forLoopLt (firstWebTab + joistSpacing) joistSpacing lastWebTab
             else []) ++ [lastWebTab]
          let c := { c with webHoles := c.webHoles ++
              webTabPositions.map (fun pos => mkPunch (roundHalf pos) .webTab) }
          if isBoltHoleEnabled then
            let bolts := webTabPositions.enum.filterMap (fun iw =>
              let offset : ℚ := if iw.1 % 2 = 0 then -29.5 else 29.5
              let boltPosition := iw.2 + offset
              if boltPosition > 50 ∧ boltPosition < length - 50 then
                some (mkPunch (roundHalf boltPosition) .boltHole)
              else none)
            { c with boltHoles := c.boltHoles ++ bolts }
          else c
        else c
      let c :=
        if stubsEnabled then
          let accepted := stubPositions.filterMap (fun pos =>
            if 0 < pos ∧ pos < length - 400 then some (mkPunch pos .service) else none)
          { c with stubs := c.stubs ++ accepted }
        else c
      if stubsEnabled then
        let brackets := ([131, length - 131, 331, length - 331] : List ℚ).filterMap (fun pos =>
          if 0 < pos ∧ pos < length then some (mkPunch pos .service) else none)
        { c with stubs := c.stubs ++ brackets }
      else c
  if holeType != "No Holes" && isServiceHoleEnabled then
    let serviceHoleSpacing := c.openingCentres
    let startPos := serviceHoleSpacing
    let endPos := length - serviceHoleSpacing
    let availableLength := endPos - startPos
    let maxServiceHoles := jsFloor (availableLength / serviceHoleSpacing)
    if maxServiceHoles ≥ 1 then
      let totalServiceSpan := ((maxServiceHoles : ℚ) - 1) * serviceHoleSpacing
      let serviceStart := startPos + (availableLength - totalServiceSpan) / 2
      let serviceHoleType := getServiceHoleType holeType
      let holes := (List.range maxServiceHoles.toNat).map
        (fun i : ℕ => mkPunch (roundHalf (serviceStart + (i : ℚ) * serviceHoleSpacing)) serviceHoleType)
      { c with serviceHoles := c.serviceHoles ++ holes }
    else c
  else c

/-- The generateScreensJoistHoles body: end bolts, paired-offset dimples,
evenly spaced screens web tabs with centred bolts, service holes distributed
between adjacent web tabs, and corner brackets. -/
def generateScreensJoistHoles (c : NCCalculations) (length _joistSpacing : ℚ)
    (holeType : String) (_endBox : Bool)
    (punchStations : Option (List PunchStationSettings)) : NCCalculations :=
  let isBoltHoleEnabled := isStationEnabled punchStations "BOLT HOLE"
  let isDimpleEnabled := isStationEnabled punchStations "DIMPLE"
  let isWebTabEnabled := isStationEnabled punchStations "WEB TAB"
  let isServiceHoleEnabled := isServiceHoleStationEnabled punchStations
  let c :=
    if isBoltHoleEnabled then
      { c with boltHoles := c.boltHoles ++ [mkPunch 30 .boltHole, mkPunch (length - 30) .boltHole] }
    else c
  let c :=
    if isDimpleEnabled then
      { c with dimples := c.dimples ++ (joistDimplePattern length).map (fun p => mkPunch p .dimple) }
    else c
  let c :=
    if isWebTabEnabled then
      let firstWebTab : ℚ := 425
      let lastWebTab := length - 425
      let workingLength := lastWebTab - firstWebTab
      let intermediate :=
        if workingLength > 0 then
          let numIntermediateSpaces := jsCeil (workingLength / 1200)
          let actualSpacing := workingLength / (numIntermediateSpaces : ℚ)
          (List.range (numIntermediateSpaces.toNat - 1)).map
            (fun i0 : ℕ => firstWebTab + ((i0 : ℚ) + 1) * actualSpacing)
        else []
      let webTabPositions := [firstWebTab] ++ intermediate ++ [lastWebTab]
      let c := { c with webHoles := c.webHoles ++
          webTabPositions.map (fun pos => mkPunch (roundHalf pos) .webTab) }
      if isBoltHoleEnabled then
        let bolts := webTabPositions.filterMap (fun webPos =>
          if webPos > 50 ∧ webPos < length - 50 then
            some (mkPunch (roundHalf webPos) .boltHole)
          else none)
        { c with boltHoles := c.boltHoles ++ bolts }
      else c
    else c
  let c :=
    if holeType != "No Holes" && isServiceHoleEnabled && isWebTabEnabled then
      let webTabPositions := sortPositions (c.webHoles.map (·.position))
      let serviceHoleSpacing : ℚ := 650
      let serviceHoleType := getServiceHoleType holeType
      let gaps := webTabPositions.zip webTabPositions.tail
      let holes := (gaps.map (fun lr =>
        let gapLength := lr.2 - lr.1
        let maxServiceHoles := jsFloor (gapLength / serviceHoleSpacing)
        if maxServiceHoles ≥ 1 then
          let totalSpan := ((maxServiceHoles : ℚ) - 1) * serviceHoleSpacing
          let offset := (gapLength - totalSpan) / 2
          (List.range maxServiceHoles.toNat).map
            (fun j : ℕ => mkPunch (roundHalf (lr.1 + offset + (j : ℚ) * serviceHoleSpacing)) serviceHoleType)
        else [])).flatten
      { c with serviceHoles := c.serviceHoles ++ holes }
    else c
  let isCornerBracketsEnabled := isStationEnabled punchStations "CORNER BRACKETS"
  if isCornerBracketsEnabled then
    { c with stubs := c.stubs ++ [mkPunch 131 .cornerBrackets, mkPunch (length - 131) .cornerBrackets] }
  else c

/-- The generateHolePositions dispatcher: clear the five lists, then route
on bearer/joist and screens mode. -/
def generateHolePositions (c : NCCalculations) (profileType : String)
    (length joistSpacing : ℚ) (holeType : String) (stubPositions : List ℚ)
    (stubsEnabled : Bool) (_endBox : Bool)
    (punchStations : Option (List PunchStationSettings))
    (screensEnabled : Bool) (joistBox : Bool) : NCCalculations :=
  let c := { c with boltHoles := [], webHoles := [], serviceHoles := [], dimples := [], stubs := [] }
  if isBearerProfile profileType then
    if screensEnabled then
      generateScreensBearerHoles c length joistSpacing holeType stubPositions stubsEnabled
        punchStations joistBox
    else
      generateBearerHoles c length joistSpacing holeType stubPositions stubsEnabled
        punchStations joistBox
  else
    let useEndBox := profileType == "Joist Box"
    if screensEnabled then
      generateScreensJoistHoles c length joistSpacing holeType useEndBox punchStations
    else
      generateJoistHoles c length holeType useEndBox punchStations

-- The NCFileGenerator state machine.

/-- The mutable triple held by NCFileGenerator, together with the part code
and quantity it stores for CSV generation. -/
structure GenState where
  calculations : NCCalculations
  partCode : String
  quantity : ℕ
  manualPunches : Option (List Punch)
  isManualMode : Bool
  updateVersion : ℕ
deriving DecidableEq, Repr

/-- The initializeCalculations defaults. -/
def initializeCalculations : NCCalculations :=
  { boltHoles := [], webHoles := [], serviceHoles := [], dimples := [], stubs := []
    endExclusion := 0, lengthMod := 0, openingCentres := SERVICE_HOLE_SPACING
    holeQty := 0, tabOffset := 0, flange := FLANGE_HEIGHT, thickness := PROFILE_THICKNESS
    holeDia := DEFAULT_HOLE_DIAMETER, holeEdgeDistance := DEFAULT_HOLE_EDGE_DISTANCE }

/-- The constructor state of NCFileGenerator. -/
def initGenState : GenState :=
  { calculations := initializeCalculations, partCode := "", quantity := 1
    manualPunches := none, isManualMode := false, updateVersion := 0 }

/-- The syncBearerBoltHolesWithWebTabs body: keep the end bolts, then walk
the sorted active web-tab positions appending the alternating offset bolts
that land strictly inside the 50 mm clearances. -/
def syncBearerBoltHolesWithWebTabs (c : NCCalculations) : NCCalculations :=
  let webTabPositions := sortPositions ((c.webHoles.filter (·.active)).map (·.position))
  let profileLength := c.lengthMod + c.endExclusion
  let endBoltHoles := c.boltHoles.filter (fun b =>
    decide (b.position ≤ 50) || decide (b.position ≥ profileLength - 50))
  let validBoltHoles := webTabPositions.enum.foldl (fun acc iw =>
    let offset : ℚ := if iw.1 % 2 = 0 then -29.5 else 29.5
    let boltHolePosition := iw.2 + offset
    if boltHolePosition > 50 ∧ boltHolePosition < profileLength - 50 then
      acc ++ [mkPunch (roundHalf boltHolePosition) .boltHole]
    else acc) endBoltHoles
  { c with boltHoles := validBoltHoles }

/-- Partition of a manual punch list into the five layout lists, in input
order, following the switch in setManualPunches. -/
def partitionManualPunches (c : NCCalculations) (punches : List Punch) : NCCalculations :=
  punches.foldl (fun c punch =>
    match punch.type with
    | .boltHole => { c with boltHoles := c.boltHoles ++ [punch] }
    | .webTab => { c with webHoles := c.webHoles ++ [punch] }
    | .mServiceHole => { c with serviceHoles := c.serviceHoles ++ [punch] }
    | .smallServiceHole => { c with serviceHoles := c.serviceHoles ++ [punch] }
    | .largeServiceHole => { c with serviceHoles := c.serviceHoles ++ [punch] }
    | .dimple => { c with dimples := c.dimples ++ [punch] }
    | .service => { c with stubs := c.stubs ++ [punch] }
    | .cornerBrackets => { c with stubs := c.stubs ++ [punch] }) c

/-- The setManualPunches transition.  A null list clears manual mode and
returns early; otherwise the layout is rebuilt from the list and, for
bearer profile types, the bolt holes are re-synchronised with the web tabs. -/
def setManualPunches (g : GenState) (punches : Option (List Punch))
    (profileType : Option String) : GenState :=
  match punches with
  | none =>
    { g with manualPunches := none, isManualMode := false,
             updateVersion := g.updateVersion + 1 }
  | some ps =>
    let g := { g with manualPunches := some ps, isManualMode := true,
                      updateVersion := g.updateVersion + 1 }
    let c := { g.calculations with
               boltHoles := [], webHoles := [], serviceHoles := [], dimples := [], stubs := [] }
    let c := partitionManualPunches c ps
    let c :=
      match profileType with
      | some pt =>
        if pt == "Bearer Single" || pt == "Bearer Box" then syncBearerBoltHolesWithWebTabs c else c
      | none => c
    { g with calculations := c }

/-- The clearManualMode transition. -/
def clearManualMode (g : GenState) : GenState :=
  { g with manualPunches := none, isManualMode := false,
           updateVersion := g.updateVersion + 1 }

/-- Read accessor for the update counter. -/
def getUpdateVersion (g : GenState) : ℕ := g.updateVersion

/-- Read accessor for the current layout. -/
def getCalculations (g : GenState) : NCCalculations := g.calculations

/-- Read accessor for the part code. -/
def getPartCode (g : GenState) : String := g.partCode

/-- The updateCalculations body: store quantity and part code, refresh the
derived scalars in source order, then either regenerate the five lists
(computed mode) or leave them alone and bump the version (manual mode). -/
def updateCalculations (g : GenState) (_platformData : PlatformData)
    (pd : ProfileData) (ed : ExportData) : GenState :=
  let length := pd.length
  let profileType := pd.profileType
  let joistSpacing := pd.joistSpacing
  let holeType := pd.holeType
  let screensEnabled := pd.screensEnabled
  let quantity := if ed.quantity = 0 then 1 else ed.quantity
  let partCode :=
    if ed.programName != "" then ed.programName
    else (if isBearerProfile profileType then "B" else "J") ++ "_" ++
      formatHalf pd.profileHeight ++ "_" ++ formatHalf length ++ "_A"
  let c := g.calculations
  let c := { c with thickness := PROFILE_THICKNESS }
  let c := { c with flange :=
      if isJoistProfile profileType then JOIST_FLANGE_HEIGHT else FLANGE_HEIGHT }
  let c := { c with holeDia := getHoleDiameter holeType }
  let c := { c with endExclusion := (c.holeDia / 2 + END_EXCLUSION_BASE) * 2 }
  let c := { c with lengthMod := length - c.endExclusion }
  let c :=
    if isJoistProfile profileType then
      { c with holeEdgeDistance := c.endExclusion / 2, openingCentres := SERVICE_HOLE_SPACING }
    else
      { c with holeEdgeDistance := DEFAULT_HOLE_EDGE_DISTANCE,
               openingCentres := SERVICE_HOLE_SPACING }
  let desiredSpacing := if pd.holeSpacing = 0 then SERVICE_HOLE_SPACING else pd.holeSpacing
  let spaces := jsFloor (c.lengthMod / desiredSpacing)
  let c :=
    if spaces < 1 then { c with holeQty := 1, openingCentres := desiredSpacing }
    else { c with holeQty := (spaces : ℚ) + 1, openingCentres := c.lengthMod / (spaces : ℚ) }
  let c := { c with tabOffset :=
      if isJoistProfile profileType then
        c.endExclusion / 2 + c.openingCentres * 2 - c.openingCentres / 2
      else joistSpacing }
  if !g.isManualMode then
    let c := generateHolePositions c profileType length joistSpacing holeType
      pd.stubPositions pd.stubsEnabled pd.endBoxJoist (some pd.punchStations)
      screensEnabled pd.joistBox
    { g with calculations := c, partCode := partCode, quantity := quantity }
  else
    { g with calculations := c, partCode := partCode, quantity := quantity,
             updateVersion := g.updateVersion + 1 }

-- The CSV encoder.

/-- Station string used on emit: the CORNER BRACKETS alias maps to SERVICE. -/
def stationExportName (t : PunchStationType) : String :=
  if t == .cornerBrackets then "SERVICE" else stationName t

/-- Active punches of the five lists, in the collection order of
generateCSV: bolt holes, web tabs, service holes, dimples, stubs. -/
def csvActivePunches (c : NCCalculations) : List Punch :=
  c.boltHoles.filter (·.active) ++ c.webHoles.filter (·.active) ++
  c.serviceHoles.filter (·.active) ++ c.dimples.filter (·.active) ++
  c.stubs.filter (·.active)

/-- The stable position sort generateCSV applies to the collected punches. -/
def csvSortedPunches (c : NCCalculations) : List Punch :=
  sortPunches (csvActivePunches c)

/-- Member length emitted in the CSV header; a zero sum falls back to 5200
through the JS or-default. -/
def csvLength (c : NCCalculations) : ℚ :=
  if c.lengthMod + c.endExclusion = 0 then 5200 else c.lengthMod + c.endExclusion

/-- The fixed header fields of the CSV line. -/
def csvHeader (g : GenState) : String :=
  let profileType := if g.partCode.startsWith "B" then "BEARER" else "JOIST"
  let componentCode := if profileType == "BEARER" then "B1-1" else "J1-1"
  let len := csvLength g.calculations
  "csvCOMPONENT," ++ componentCode ++ "," ++ g.partCode ++ "," ++ profileType ++
    ",NORMAL," ++ toString g.quantity ++ "," ++ formatHalf len ++ ",0,0," ++
    formatHalf len ++ ",0,50"

/-- One punch field pair appended per emitted punch. -/
def csvPunchField (p : Punch) : String :=
  "," ++ stationExportName p.type ++ "," ++ formatHalf (roundHalf p.position)

/-- The generateCSV body: header, then the active punches sorted by
position, appended in order. -/
def generateCSV (g : GenState) : String :=
  (csvSortedPunches g.calculations).foldl (fun acc p => acc ++ csvPunchField p) (csvHeader g)

-- The clash detector.

/-- Severity of a diagnostic. -/
inductive ClashSeverity where
  | error
  | warning
deriving DecidableEq, Repr

/-- The diagnostic kind union of the clash-detection module. -/
inductive ClashType where
  | clearance
  | overlap
  | spanLimit
  | positionConflict
  | alignment
deriving DecidableEq, Repr

/-- One diagnostic.  The source record also carries three presentational
strings (element1, element2, issue) that are built only for display; they
are determined by the same data the kept fields are computed from and are
omitted from the embedding. -/
structure ClashIssue where
  type : ClashType
  position : Option ℚ
  severity : ClashSeverity
deriving DecidableEq, Repr

/-- The detectClashes result record. -/
structure ClashDetectionResult where
  issues : List ClashIssue
  errorCount : ℕ
  warningCount : ℕ
deriving DecidableEq, Repr

/-- Longitudinal width of a punch per the punch-dimension registry
(round shapes use the diameter, others the stored width).  Every member of
the enumeration has an entry, so the missing-station default of the source
is unreachable. -/
def punchVisualWidth : PunchStationType → ℚ
  | .boltHole => 11
  | .dimple => 5
  | .webTab => 45
  | .mServiceHole => 200
  | .smallServiceHole => 110
  | .largeServiceHole => 200
  | .service => 115
  | .cornerBrackets => 115

/-- The getClearanceDistance helper: half the visual width. -/
def getClearanceDistance (t : PunchStationType) : ℚ := punchVisualWidth t / 2

/-- Rule 1a: bolt holes inside the 50 mm end clearances, end bolts exempt. -/
def ruleBoltEdge (c : NCCalculations) (profileLength : ℚ) : List ClashIssue :=
  (c.boltHoles.map (fun bolt =>
    if !bolt.active then []
    else if bolt.position ≤ 35 ∨ bolt.position ≥ profileLength - 35 then []
    else
      (if bolt.position < MIN_CLEARANCE then
        [⟨ClashType.clearance, some bolt.position, ClashSeverity.error⟩] else []) ++
      (if bolt.position > profileLength - MIN_CLEARANCE then
        [⟨ClashType.clearance, some bolt.position, ClashSeverity.error⟩] else []))).flatten

/-- Rule 1b: web tabs closer to an end than half their width. -/
def ruleWebTabEdge (c : NCCalculations) (profileLength : ℚ) : List ClashIssue :=
  (c.webHoles.map (fun webTab =>
    if !webTab.active then []
    else
      (if webTab.position < WEB_TAB_CLEARANCE then
        [⟨ClashType.clearance, some webTab.position, ClashSeverity.error⟩] else []) ++
      (if webTab.position > profileLength - WEB_TAB_CLEARANCE then
        [⟨ClashType.clearance, some webTab.position, ClashSeverity.error⟩] else []))).flatten

/-- Rule 1c: service holes closer to an end than their radius. -/
def ruleServiceEdge (c : NCCalculations) (profileLength : ℚ) : List ClashIssue :=
  (c.serviceHoles.map (fun service =>
    if !service.active then []
    else
      let serviceRadius := getClearanceDistance service.type
      (if service.position < serviceRadius then
        [⟨ClashType.clearance, some service.position, ClashSeverity.error⟩] else []) ++
      (if service.position > profileLength - serviceRadius then
        [⟨ClashType.clearance, some service.position, ClashSeverity.error⟩] else []))).flatten

/-- Required web-tab-to-service-hole centre distance, by service kind. -/
def webTabServiceRequiredDistance (t : PunchStationType) : ℚ :=
  if t = .mServiceHole then 145
  else if t = .largeServiceHole then 245
  else if t = .smallServiceHole then 102.5
  else 22.5 + getClearanceDistance t + 22.5

/-- Rule 2: web tab against every service hole. -/
def ruleWebTabService (c : NCCalculations) : List ClashIssue :=
  (c.webHoles.map (fun webTab =>
    if !webTab.active then []
    else
      (c.serviceHoles.map (fun service =>
        if !service.active then []
        else
          let distance := |service.position - webTab.position|
          if distance < webTabServiceRequiredDistance service.type then
            [⟨ClashType.clearance, some webTab.position, ClashSeverity.warning⟩]
          else [])).flatten)).flatten

/-- Rule 2b: stub against every service hole, 250 mm centre distance. -/
def ruleStubService (c : NCCalculations) : List ClashIssue :=
  (c.stubs.map (fun stub =>
    if !stub.active then []
    else
      (c.serviceHoles.map (fun service =>
        if !service.active then []
        else
          if |stub.position - service.position| < SERVICE_CLEARANCE then
            [⟨ClashType.clearance, some stub.position, ClashSeverity.warning⟩]
          else [])).flatten)).flatten

/-- The bearer bolt-over-web-tab alignment rule.  The source contains this
block twice, verbatim, as its sections 3 and 5; this definition is the body
of one pass and detectClashes invokes it at both places. -/
def bearerAlignmentIssues (c : NCCalculations) (p : ProfileData) : List ClashIssue :=
  if isBearerProfile p.profileType then
    let profileLength := c.lengthMod + c.endExclusion
    let sortedWebTabs := sortPunches (c.webHoles.filter (·.active))
    let nonEndBolts := c.boltHoles.filter (fun b =>
      b.active && decide (b.position > MIN_CLEARANCE) &&
      decide (b.position < profileLength - MIN_CLEARANCE))
    sortedWebTabs.enum.filterMap (fun iw =>
      let expectedOffset : ℚ := if iw.1 % 2 = 0 then -29.5 else 29.5
      let expectedBoltPosition := roundHalf (iw.2.position + expectedOffset)
      if nonEndBolts.any (fun b =>
          decide (|b.position - expectedBoltPosition| < POSITION_TOLERANCE)) then none
      else some ⟨ClashType.alignment, some iw.2.position, ClashSeverity.warning⟩)
  else []

/-- Rule 4: flange conflicts between dimples and bolt holes. -/
def ruleFlangeConflict (c : NCCalculations) : List ClashIssue :=
  (c.dimples.map (fun dimple =>
    if !dimple.active then []
    else
      (c.boltHoles.map (fun bolt =>
        if !bolt.active then []
        else
          if |dimple.position - bolt.position| < 2.5 + 5.5 + 5 then
            [⟨ClashType.clearance, some dimple.position, ClashSeverity.warning⟩]
          else [])).flatten)).flatten

/-- Rule 6a: dimple positions checked against the canonical ladder for the
profile kind (bearer start 479.5 step 450; joist legacy start 509.5 step
409.5), with a 1 mm tolerance. -/
def ruleDimpleGrid (c : NCCalculations) (p : ProfileData) : List ClashIssue :=
  let isBearer := isBearerProfile p.profileType
  let dimplePositions := sortPositions ((c.dimples.filter (·.active)).map (·.position))
  let expectedDimpleSpacing := if isBearer then DIMPLE_SPACING_BEARER else DIMPLE_SPACING_JOIST
  let dimpleStart := if isBearer then DIMPLE_START_BEARER else DIMPLE_START_JOIST
  dimplePositions.enum.filterMap (fun ip =>
    if ip.1 = 0 then
      if |ip.2 - dimpleStart| > 1 then
        some ⟨ClashType.positionConflict, some ip.2, ClashSeverity.warning⟩
      else none
    else
      let expectedPos := dimpleStart + (ip.1 : ℚ) * expectedDimpleSpacing
      if |ip.2 - expectedPos| > 1 then
        some ⟨ClashType.positionConflict, some ip.2, ClashSeverity.warning⟩
      else none)

/-- Rule 6, joist arm: profile length against the span limit. -/
def ruleJoistSpan (p : ProfileData) : List ClashIssue :=
  match p.kpaRating with
  | some kpa =>
    if isJoistProfile p.profileType then
      if p.length > spanLimitFor kpa then
        [⟨ClashType.spanLimit, none, ClashSeverity.error⟩]
      else []
    else []
  | none => []

/-- Rule 6, bearer arm: joist length against the span limit (a zero joist
length is falsy in the source and skips the check). -/
def ruleBearerSpan (p : ProfileData) : List ClashIssue :=
  match p.kpaRating with
  | some kpa =>
    if isBearerProfile p.profileType then
      match p.joistLength with
      | some joistLength =>
        if joistLength ≠ 0 ∧ joistLength > spanLimitFor kpa then
          [⟨ClashType.spanLimit, none, ClashSeverity.warning⟩]
        else []
      | none => []
    else []
  | none => []

/-- Rule 7: adjacent web-tab spacing against the configured joist spacing. -/
def ruleWebTabSpacing (c : NCCalculations) (p : ProfileData) : List ClashIssue :=
  let webTabPositions := sortPositions ((c.webHoles.filter (·.active)).map (·.position))
  let expected := p.joistSpacing
  let tolerance := max (expected * SPACING_TOLERANCE_PERCENT) MIN_SPACING_TOLERANCE
  (webTabPositions.zip webTabPositions.tail).filterMap (fun lr =>
    let spacing := lr.2 - lr.1
    if |spacing - expected| > tolerance then
      some ⟨ClashType.clearance, some lr.1, ClashSeverity.warning⟩
    else none)

/-- Rule 8: adjacent non-corner service-hole spacing against 650 mm, skipped
in screens mode and when fewer than two non-corner holes remain. -/
def ruleServiceSpacing (c : NCCalculations) (p : ProfileData) (profileLength : ℚ) :
    List ClashIssue :=
  let servicePositions := sortPositions ((c.serviceHoles.filter (·.active)).map (·.position))
  if !p.screensEnabled && servicePositions.length > 1 then
    let nonCorner := servicePositions.filter (fun pos =>
      decide (pos > 150) && decide (pos < profileLength - 150))
    if nonCorner.length > 1 then
      (nonCorner.zip nonCorner.tail).filterMap (fun lr =>
        let spacing := lr.2 - lr.1
        if |spacing - SERVICE_HOLE_SPACING| > MIN_SPACING_TOLERANCE then
          some ⟨ClashType.positionConflict, some lr.1, ClashSeverity.warning⟩
        else none)
    else []
  else []

/-- One overlap comparison of rule 9: the required centre distance is the
sum of the two clearances plus the 10 mm web-face separation; distances
under 5 mm are errors, others warnings. -/
def facePairIssue (punch1 punch2 : Punch) : List ClashIssue :=
  if !punch2.active then []
  else
    let distance := |punch1.position - punch2.position|
    let requiredDistance :=
      getClearanceDistance punch1.type + getClearanceDistance punch2.type + POSITION_TOLERANCE
    if distance < requiredDistance then
      [⟨ClashType.overlap, some punch1.position,
        if distance < 5 then ClashSeverity.error else ClashSeverity.warning⟩]
    else []

/-- Rule 9 pair loop over the face punches: index pairs i < j in order. -/
def facePairScan : List Punch → List ClashIssue
  | [] => []
  | punch1 :: rest =>
    (if !punch1.active then [] else (rest.map (facePairIssue punch1)).flatten) ++
    facePairScan rest

/-- The detectClashes body: the rule segments concatenated in source order.
The bearer alignment block appears twice in the source (its sections 3 and
5) and therefore contributes two segments here. -/
def detectClashes (c : NCCalculations) (p : ProfileData) : ClashDetectionResult :=
  let profileLength := c.lengthMod + c.endExclusion
  let facePunches := c.webHoles ++ c.serviceHoles ++ c.stubs
  let issues :=
    ruleBoltEdge c profileLength ++
    ruleWebTabEdge c profileLength ++
    ruleServiceEdge c profileLength ++
    ruleWebTabService c ++
    ruleStubService c ++
    bearerAlignmentIssues c p ++
    ruleFlangeConflict c ++
    bearerAlignmentIssues c p ++
    ruleDimpleGrid c p ++
    ruleJoistSpan p ++
    ruleBearerSpan p ++
    ruleWebTabSpacing c p ++
    ruleServiceSpacing c p profileLength ++
    facePairScan facePunches
  { issues := issues
    errorCount := (issues.filter (fun i => i.severity = ClashSeverity.error)).length
    warningCount := (issues.filter (fun i => i.severity = ClashSeverity.warning)).length }

-- Shared concrete inputs used by witnesses and counterexamples.

/-- A punch-station list with every station enabled. -/
def allStationsEnabled : List PunchStationSettings :=
  [⟨"BOLT HOLE", true⟩, ⟨"DIMPLE", true⟩, ⟨"WEB TAB", true⟩, ⟨"M SERVICE HOLE", true⟩,
   ⟨"SMALL SERVICE HOLE", true⟩, ⟨"LARGE SERVICE HOLE", true⟩, ⟨"SERVICE", true⟩,
   ⟨"CORNER BRACKETS", true⟩]

-- Theorems.

/-- C3: for every length and a kPa rating of 2.5 or 5.0, the advisor
returns exactly the first matching row of the documented piecewise tables,
evaluated top to bottom, with the Box 300 exceeds-limit fallback when no
row matches. -/
theorem spanTable_firstMatch (length : ℚ) :
    getSpanTableRecommendation length "2.5" = firstMatchingRow spanTable25 length ∧
    getSpanTableRecommendation length "5.0" = firstMatchingRow spanTable50 length := by
  constructor <;> rfl

set_option maxHeartbeats 3200000 in
/-- Variant characterisation of the 2.5 kPa advisor arm: lengths at most
9550 advise Single, longer ones Box. -/
lemma spanRec25_profileType (l : ℚ) :
    (getSpanTableRecommendation l "2.5").profileType =
      (if l ≤ 9550 then "Joist Single" else "Joist Box") := by
  unfold getSpanTableRecommendation
  split_ifs <;>
    first
      | rfl
      | exact absurd rfl ‹¬("2.5" == "2.5") = true›
      | (exfalso; linarith)

set_option maxHeartbeats 3200000 in
/-- Spacing characterisation of the 2.5 kPa advisor arm. -/
lemma spanRec25_joistSpacing (l : ℚ) :
    (getSpanTableRecommendation l "2.5").joistSpacing =
      (if l ≤ 6800 then 600 else if l ≤ 7600 then 500 else if l ≤ 8600 then 400
       else if l ≤ 9550 then 300 else if l ≤ 9750 then 500 else if l ≤ 10600 then 400
       else 300) := by
  unfold getSpanTableRecommendation
  split_ifs <;>
    first
      | rfl
      | exact absurd rfl ‹¬("2.5" == "2.5") = true›
      | (exfalso; linarith)

set_option maxHeartbeats 3200000 in
/-- Variant characterisation of the 5.0 kPa advisor arm (any rating other
than the 2.5 literal takes this table). -/
lemma spanRec50_profileType (l : ℚ) (kpa : String) (hk : (kpa == "2.5") = false) :
    (getSpanTableRecommendation l kpa).profileType =
      (if l ≤ 7000 then "Joist Single" else "Joist Box") := by
  unfold getSpanTableRecommendation
  rw [if_neg (by simp [hk])]
  split_ifs <;> first | rfl | (exfalso; linarith)

set_option maxHeartbeats 3200000 in
/-- Spacing characterisation of the 5.0 kPa advisor arm. -/
lemma spanRec50_joistSpacing (l : ℚ) (kpa : String) (hk : (kpa == "2.5") = false) :
    (getSpanTableRecommendation l kpa).joistSpacing =
      (if l ≤ 4500 then 600 else if l ≤ 5100 then 500 else if l ≤ 5850 then 400
       else if l ≤ 7000 then 300 else if l ≤ 7700 then 500 else if l ≤ 8350 then 400
       else 300) := by
  unfold getSpanTableRecommendation
  rw [if_neg (by simp [hk])]
  split_ifs <;> first | rfl | (exfalso; linarith)

set_option maxHeartbeats 3200000 in
/-- C5: within one advised profile variant, a longer length never receives
a larger joist spacing from the advisor. -/
theorem advisor_spacing_antitone (l1 l2 : ℚ) (kpa : String) (h : l1 ≤ l2)
    (hv : (getSpanTableRecommendation l1 kpa).profileType =
          (getSpanTableRecommendation l2 kpa).profileType) :
    (getSpanTableRecommendation l2 kpa).joistSpacing ≤
      (getSpanTableRecommendation l1 kpa).joistSpacing := by
  by_cases hk : (kpa == "2.5") = true
  · have hk2 : kpa = "2.5" := by simpa using hk
    subst hk2
    rw [spanRec25_profileType, spanRec25_profileType] at hv
    rw [spanRec25_joistSpacing, spanRec25_joistSpacing]
    split_ifs at hv ⊢ <;>
      first
        | exact absurd hv (by decide)
        | linarith
  · have hk2 : (kpa == "2.5") = false := by simpa using hk
    rw [spanRec50_profileType _ _ hk2, spanRec50_profileType _ _ hk2] at hv
    rw [spanRec50_joistSpacing _ _ hk2, spanRec50_joistSpacing _ _ hk2]
    split_ifs at hv ⊢ <;>
      first
        | exact absurd hv (by decide)
        | linarith

/-- Witness for C5 at lengths 3000 and 4000 under the 2.5 kPa table. -/
theorem advisor_spacing_antitone_witness :
    (3000 : ℚ) ≤ 4000 ∧
    (getSpanTableRecommendation 3000 "2.5").profileType =
      (getSpanTableRecommendation 4000 "2.5").profileType ∧
    (getSpanTableRecommendation 4000 "2.5").joistSpacing ≤
      (getSpanTableRecommendation 3000 "2.5").joistSpacing :=
  ⟨by norm_num, by decide,
   advisor_spacing_antitone 3000 4000 "2.5" (by norm_num) (by decide)⟩

/-- C8 counterexample: an unrecognised hole-type string yields diameter
200, not the 110 the claim asserts. -/
theorem getHoleDiameter_unknown_not_110 :
    getHoleDiameter "Unknown Hole" = 200 ∧ (200 : ℚ) ≠ 110 :=
  ⟨rfl, by norm_num⟩

/-- C8 amended: every hole-type string outside the recognised literal set
falls to the default diameter DEFAULT_HOLE_DIAMETER = 200; the value 110 is
produced only for the recognised legacy literal 110 Round. -/
theorem getHoleDiameter_default (s : String)
    (h : s ∉ (["50mm", "200mm", "200 Round", "110 Round", "200mm x 400mm",
               "200 x 400 Oval", "115 Round", "115mm"] : List String)) :
    getHoleDiameter s = DEFAULT_HOLE_DIAMETER := by
  simp only [List.mem_cons, List.not_mem_nil, or_false, not_or] at h
  obtain ⟨h1, h2, h3, h4, h5, h6, h7, h8⟩ := h
  unfold getHoleDiameter
  split_ifs with c1 c2 c3 c4 c5
  · exact absurd (by simpa using c1) h1
  · rcases (by simpa using c2 : s = "200mm" ∨ s = "200 Round") with hc | hc
    · exact absurd hc h2
    · exact absurd hc h3
  · exact absurd (by simpa using c3) h4
  · rcases (by simpa using c4 : s = "200mm x 400mm" ∨ s = "200 x 400 Oval") with hc | hc
    · exact absurd hc h5
    · exact absurd hc h6
  · rcases (by simpa using c5 : s = "115 Round" ∨ s = "115mm") with hc | hc
    · exact absurd hc h7
    · exact absurd hc h8
  · rfl

/-- Witness for C8 at a concrete unrecognised literal. -/
theorem getHoleDiameter_default_witness :
    ("Unknown Type" ∉ (["50mm", "200mm", "200 Round", "110 Round", "200mm x 400mm",
                        "200 x 400 Oval", "115 Round", "115mm"] : List String)) ∧
    getHoleDiameter "Unknown Type" = DEFAULT_HOLE_DIAMETER :=
  ⟨by decide, getHoleDiameter_default "Unknown Type" (by decide)⟩

/-- C10: set_manual_punches with a null list exits Manual mode, clears the
stored manual punches and bumps the version, while the current layout
(all five lists and every derived scalar) is left untouched. -/
theorem setManualPunches_none_frame (g : GenState) (pt : Option String) :
    (setManualPunches g none pt).calculations = g.calculations ∧
    (setManualPunches g none pt).isManualMode = false ∧
    (setManualPunches g none pt).manualPunches = none ∧
    (setManualPunches g none pt).updateVersion = g.updateVersion + 1 ∧
    getCalculations (setManualPunches g none pt) = getCalculations g :=
  ⟨rfl, rfl, rfl, rfl, rfl⟩

/-- C2 amended: set_manual_punches and clear_manual_mode always increment
update_version by one, and update_calculations increments it only in Manual
mode; a Computed-mode update_calculations call leaves it unchanged. -/
theorem mutators_updateVersion (g : GenState) (plat : PlatformData) (pd : ProfileData)
    (ed : ExportData) (ps : Option (List Punch)) (pt : Option String) :
    getUpdateVersion (updateCalculations g plat pd ed) =
      (if g.isManualMode then g.updateVersion + 1 else g.updateVersion) ∧
    getUpdateVersion (setManualPunches g ps pt) = g.updateVersion + 1 ∧
    getUpdateVersion (clearManualMode g) = g.updateVersion + 1 := by
  refine ⟨?_, ?_, rfl⟩
  · unfold updateCalculations getUpdateVersion
    cases hm : g.isManualMode <;> simp [hm]
  · cases ps <;> rfl

-- Concrete inputs for the Computed-mode version counterexample.

/-- A small bearer profile in normal (non-screens, non-box) mode. -/
def exampleProfileBearer : ProfileData :=
  { profileType := "Bearer Single", profileHeight := 200, length := 1200, joistLength := none
    joistSpacing := 600, stubSpacing := 1200, stubPositions := [331], stubsEnabled := true
    holeType := "No Holes", holeSpacing := 650, punchStations := allStationsEnabled
    endBoxJoist := false, screensEnabled := false, joistBox := false, kpaRating := some "2.5" }

/-- Platform data (ignored by updateCalculations). -/
def examplePlatform : PlatformData := ⟨6000, 5200, 3, 1200⟩

/-- Export data for the examples. -/
def exampleExport : ExportData := ⟨2, "B_TEST"⟩

/-- C2 counterexample: from the initial (Computed-mode) state a call to
update_calculations leaves get_update_version unchanged, so the counter
does not strictly increase across every mutating call. -/
theorem updateCalculations_computed_keeps_version :
    initGenState.isManualMode = false ∧
    getUpdateVersion (updateCalculations initGenState examplePlatform
        exampleProfileBearer exampleExport) = getUpdateVersion initGenState :=
  ⟨rfl, rfl⟩

lemma gcbh_dimples (c : NCCalculations) (l js : ℚ) (ht : String)
    (st : Option (List PunchStationSettings)) :
    (generateCoordinatedBearerHoles c l js ht st).dimples = c.dimples := by
  simp only [generateCoordinatedBearerHoles]
  split_ifs <;> rfl

lemma gcbh_stubs (c : NCCalculations) (l js : ℚ) (ht : String)
    (st : Option (List PunchStationSettings)) :
    (generateCoordinatedBearerHoles c l js ht st).stubs = c.stubs := by
  simp only [generateCoordinatedBearerHoles]
  split_ifs <;> rfl

lemma gcbh_boltHoles (c : NCCalculations) (l js : ℚ) (ht : String)
    (st : Option (List PunchStationSettings)) :
    (generateCoordinatedBearerHoles c l js ht st).boltHoles = c.boltHoles := by
  simp only [generateCoordinatedBearerHoles]
  split_ifs <;> rfl

lemma gcbh_webHoles (c : NCCalculations) (l js : ℚ) (ht : String)
    (st : Option (List PunchStationSettings)) :
    (generateCoordinatedBearerHoles c l js ht st).webHoles =
      c.webHoles ++
      (if isStationEnabled st "WEB TAB" = true then bearerWebTabsList l js else []) := by
  simp only [generateCoordinatedBearerHoles]
  split_ifs <;> simp

lemma gcbh_serviceHoles (c : NCCalculations) (l js : ℚ) (ht : String)
    (st : Option (List PunchStationSettings)) :
    (generateCoordinatedBearerHoles c l js ht st).serviceHoles =
      c.serviceHoles ++
      (if (ht != "No Holes" && isServiceHoleStationEnabled st) = true then
        bearerServiceHolesList c.openingCentres l ht else []) := by
  simp only [generateCoordinatedBearerHoles]
  split_ifs <;> simp

lemma bearerBoltStep_dimples (L : ℚ) (c : NCCalculations) (iw : ℕ × Punch) :
    (bearerBoltStep L c iw).dimples = c.dimples := by
  simp only [bearerBoltStep]
  split_ifs <;> rfl

lemma bearerBoltStep_webHoles (L : ℚ) (c : NCCalculations) (iw : ℕ × Punch) :
    (bearerBoltStep L c iw).webHoles = c.webHoles := by
  simp only [bearerBoltStep]
  split_ifs <;> rfl

lemma bearerBoltStep_serviceHoles (L : ℚ) (c : NCCalculations) (iw : ℕ × Punch) :
    (bearerBoltStep L c iw).serviceHoles = c.serviceHoles := by
  simp only [bearerBoltStep]
  split_ifs <;> rfl

lemma bearerBoltStep_stubs (L : ℚ) (c : NCCalculations) (iw : ℕ × Punch) :
    (bearerBoltStep L c iw).stubs = c.stubs := by
  simp only [bearerBoltStep]
  split_ifs <;> rfl

lemma boltFold_dimples (L : ℚ) (l : List (ℕ × Punch)) (c : NCCalculations) :
    (l.foldl (bearerBoltStep L) c).dimples = c.dimples := by
  induction l generalizing c with
  | nil => rfl
  | cons a t ih => rw [List.foldl_cons, ih, bearerBoltStep_dimples]

lemma boltFold_webHoles (L : ℚ) (l : List (ℕ × Punch)) (c : NCCalculations) :
    (l.foldl (bearerBoltStep L) c).webHoles = c.webHoles := by
  induction l generalizing c with
  | nil => rfl
  | cons a t ih => rw [List.foldl_cons, ih, bearerBoltStep_webHoles]

lemma boltFold_serviceHoles (L : ℚ) (l : List (ℕ × Punch)) (c : NCCalculations) :
    (l.foldl (bearerBoltStep L) c).serviceHoles = c.serviceHoles := by
  induction l generalizing c with
  | nil => rfl
  | cons a t ih => rw [List.foldl_cons, ih, bearerBoltStep_serviceHoles]

lemma boltFold_stubs (L : ℚ) (l : List (ℕ × Punch)) (c : NCCalculations) :
    (l.foldl (bearerBoltStep L) c).stubs = c.stubs := by
  induction l generalizing c with
  | nil => rfl
  | cons a t ih => rw [List.foldl_cons, ih, bearerBoltStep_stubs]

lemma gbh_normal_dimples (c : NCCalculations) (len js : ℚ) (ht : String) (sp : List ℚ)
    (se : Bool) (st : Option (List PunchStationSettings)) :
    (generateBearerHoles c len js ht sp se st false).dimples =
      c.dimples ++
      (if isStationEnabled st "DIMPLE" = true then
        (forLoopLe DIMPLE_START_BEARER DIMPLE_SPACING_BEARER (len - 270.5)).map
          (fun p => mkPunch p .dimple)
      else []) := by
  simp only [generateBearerHoles]
  simp only [Bool.not_false, Bool.and_true, Bool.false_and, Bool.false_eq_true, if_false]
  split_ifs <;> simp [gcbh_dimples, boltFold_dimples] <;> simp_all

lemma gbh_normal_stubs (c : NCCalculations) (len js : ℚ) (ht : String) (sp : List ℚ)
    (se : Bool) (st : Option (List PunchStationSettings)) :
    (generateBearerHoles c len js ht sp se st false).stubs =
      c.stubs ++
      (if isStationEnabled st "SERVICE" = true then
        [mkPunch 131 .service, mkPunch (len - 131) .service] ++
        sp.filterMap (fun pos =>
          if 0 < pos ∧ pos < len then some (mkPunch pos .service) else none)
      else []) := by
  simp only [generateBearerHoles]
  simp only [Bool.not_false, Bool.and_true, Bool.false_and, Bool.false_eq_true, if_false]
  split_ifs <;> simp [gcbh_stubs, boltFold_stubs] <;> simp_all

lemma gbh_normal_webHoles (c : NCCalculations) (len js : ℚ) (ht : String) (sp : List ℚ)
    (se : Bool) (st : Option (List PunchStationSettings)) :
    (generateBearerHoles c len js ht sp se st false).webHoles =
      c.webHoles ++
      (if isStationEnabled st "WEB TAB" = true then bearerWebTabsList len js else []) := by
  simp only [generateBearerHoles]
  simp only [Bool.not_false, Bool.and_true, Bool.false_and, Bool.false_eq_true, if_false]
  split_ifs <;> simp [gcbh_webHoles, boltFold_webHoles] <;> simp_all

lemma gbh_normal_serviceHoles (c : NCCalculations) (len js : ℚ) (ht : String) (sp : List ℚ)
    (se : Bool) (st : Option (List PunchStationSettings)) :
    (generateBearerHoles c len js ht sp se st false).serviceHoles =
      c.serviceHoles ++
      (if (ht != "No Holes" && isServiceHoleStationEnabled st) = true then
        bearerServiceHolesList c.openingCentres len ht else []) := by
  simp only [generateBearerHoles]
  simp only [Bool.not_false, Bool.and_true, Bool.false_and, Bool.false_eq_true, if_false]
  split_ifs <;> simp [gcbh_serviceHoles, boltFold_serviceHoles] <;> simp_all

/-- Monotonicity of roundHalf: Math.round and the halving are monotone. -/
lemma roundHalf_le_roundHalf {x y : ℚ} (h : x ≤ y) : roundHalf x ≤ roundHalf y := by
  unfold roundHalf jsRound
  have hf : (⌊x * 2 + 1/2⌋ : ℤ) ≤ ⌊y * 2 + 1/2⌋ := Int.floor_le_floor (by linarith)
  have hq : ((⌊x * 2 + 1/2⌋ : ℤ) : ℚ) ≤ ((⌊y * 2 + 1/2⌋ : ℤ) : ℚ) := by exact_mod_cast hf
  linarith

/-- A loop with non-negative step emits non-decreasing positions. -/
lemma forLoopLe_pairwise (start step bound : ℚ) (hd : 0 ≤ step) :
    (forLoopLe start step bound).Pairwise (· ≤ ·) := by
  unfold forLoopLe
  rw [List.pairwise_map]
  refine (List.pairwise_lt_range _).imp ?_
  intro i j hij
  have hij2 : (i : ℚ) ≤ (j : ℚ) := by exact_mod_cast hij.le
  have := mul_le_mul_of_nonneg_right hij2 hd
  linarith

/-- The bearer web-tab list is sorted by position when the spacing is
non-negative. -/
lemma bearerWebTabsList_sorted (len js : ℚ) (hjs : 0 ≤ js) :
    ((bearerWebTabsList len js).map Punch.position).Pairwise (· ≤ ·) := by
  simp only [bearerWebTabsList]
  rw [List.map_filterMap, List.pairwise_filterMap]
  refine (List.pairwise_lt_range _).imp ?_
  intro i j hij b hb b' hb'
  have hij2 : (i : ℚ) ≤ (j : ℚ) := by exact_mod_cast hij.le
  have hmul := mul_le_mul_of_nonneg_right hij2 hjs
  simp only [mkPunch, apply_ite (Option.map Punch.position), Option.map_some,
    Option.map_none] at hb hb'
  split_ifs at hb hb' <;> simp at hb hb'
  subst hb; subst hb'
  exact roundHalf_le_roundHalf (by linarith)

/-- The bearer service-hole list is sorted by position when the opening
centres value is non-negative. -/
lemma bearerServiceHolesList_sorted (oc len : ℚ) (ht : String) (hoc : 0 ≤ oc) :
    ((bearerServiceHolesList oc len ht).map Punch.position).Pairwise (· ≤ ·) := by
  simp only [bearerServiceHolesList]
  split_ifs
  · rw [List.map_map, List.pairwise_map]
    refine (List.pairwise_lt_range _).imp ?_
    intro i j hij
    have hij2 : (i : ℚ) ≤ (j : ℚ) := by exact_mod_cast hij.le
    have := mul_le_mul_of_nonneg_right hij2 hoc
    simp only [Function.comp, mkPunch]
    exact roundHalf_le_roundHalf (by linarith)
  · simp

/-- C1 amended: in bearer normal mode (no screens, no joist-box) the dimple,
web-tab and service-hole lists are sorted ascending by position, starting
from cleared lists; the bolt-hole and stub lists are emitted in generation
order and are not sorted in general. -/
theorem bearerNormal_sorted_lists (c : NCCalculations) (len js : ℚ) (ht : String)
    (sp : List ℚ) (se : Bool) (st : Option (List PunchStationSettings))
    (hjs : 0 ≤ js) (hoc : 0 ≤ c.openingCentres)
    (hd : c.dimples = []) (hw : c.webHoles = []) (hs : c.serviceHoles = []) :
    ((generateBearerHoles c len js ht sp se st false).dimples.map Punch.position).Sorted (· ≤ ·) ∧
    ((generateBearerHoles c len js ht sp se st false).webHoles.map Punch.position).Sorted (· ≤ ·) ∧
    ((generateBearerHoles c len js ht sp se st false).serviceHoles.map
      Punch.position).Sorted (· ≤ ·) := by
  refine ⟨?_, ?_, ?_⟩
  · rw [gbh_normal_dimples, hd, List.nil_append]
    split_ifs
    · have := forLoopLe_pairwise DIMPLE_START_BEARER DIMPLE_SPACING_BEARER (len - 270.5)
        (by norm_num [DIMPLE_SPACING_BEARER])
      simpa [List.map_map, Function.comp_def, mkPunch] using this
    · simp
  · rw [gbh_normal_webHoles, hw, List.nil_append]
    split_ifs
    · exact bearerWebTabsList_sorted len js hjs
    · simp
  · rw [gbh_normal_serviceHoles, hs, List.nil_append]
    split_ifs
    · exact bearerServiceHolesList_sorted c.openingCentres len ht hoc
    · simp

set_option maxRecDepth 100000 in
/-- C1 counterexample: the bolt-hole list of a bearer normal layout is not
sorted: the end bolt at length - 30 is pushed before the interior paired
bolts (here 30, 1170, 570.5 in emission order). -/
theorem bearerNormal_boltHoles_unsorted :
    ¬ (((generateBearerHoles initializeCalculations 1200 600 "No Holes" []
        true (some allStationsEnabled) false).boltHoles.map Punch.position).Sorted (· ≤ ·)) := by
  have h : (generateBearerHoles initializeCalculations 1200 600 "No Holes" []
      true (some allStationsEnabled) false).boltHoles.map Punch.position =
      [30, 1170, 570.5] := by
    with_unfolding_all rfl
  rw [h]
  intro hs
  rcases List.sorted_cons.mp hs with ⟨-, hs2⟩
  rcases List.sorted_cons.mp hs2 with ⟨h12, -⟩
  have := h12 (570.5 : ℚ) (by simp)
  norm_num at this

/-- Witness for C1 at scenario-1-like inputs. -/
theorem bearerNormal_sorted_lists_witness :
    ((0 : ℚ) ≤ 600 ∧ (0 : ℚ) ≤ initializeCalculations.openingCentres ∧
     initializeCalculations.dimples = [] ∧ initializeCalculations.webHoles = [] ∧
     initializeCalculations.serviceHoles = []) ∧
    (((generateBearerHoles initializeCalculations 5200 600 "No Holes" [331] true
        (some allStationsEnabled) false).dimples.map Punch.position).Sorted (· ≤ ·) ∧
     ((generateBearerHoles initializeCalculations 5200 600 "No Holes" [331] true
        (some allStationsEnabled) false).webHoles.map Punch.position).Sorted (· ≤ ·) ∧
     ((generateBearerHoles initializeCalculations 5200 600 "No Holes" [331] true
        (some allStationsEnabled) false).serviceHoles.map Punch.position).Sorted (· ≤ ·)) :=
  ⟨⟨by norm_num, by norm_num [initializeCalculations, SERVICE_HOLE_SPACING], rfl, rfl, rfl⟩,
   bearerNormal_sorted_lists initializeCalculations 5200 600 "No Holes" [331] true
     (some allStationsEnabled) (by norm_num)
     (by norm_num [initializeCalculations, SERVICE_HOLE_SPACING]) rfl rfl rfl⟩

set_option maxRecDepth 100000 in
/-- C4 counterexample: at bearer length 5200 the planner emits ten dimples
ending at 4529.5; the documented 11-entry list ending at 4979.5 is wrong,
since 4979.5 exceeds the loop bound 5200 - 270.5 = 4929.5. -/
theorem bearer5200_dimples_not_eleven :
    (generateBearerHoles initializeCalculations 5200 600 "No Holes"
        [331, 1531, 2731, 3931, 4869] true (some allStationsEnabled) false).dimples.map
      Punch.position ≠
      [479.5, 929.5, 1379.5, 1829.5, 2279.5, 2729.5, 3179.5, 3629.5, 4079.5, 4529.5,
       4979.5] := by
  have h : (generateBearerHoles initializeCalculations 5200 600 "No Holes"
      [331, 1531, 2731, 3931, 4869] true (some allStationsEnabled) false).dimples.map
      Punch.position =
      [479.5, 929.5, 1379.5, 1829.5, 2279.5, 2729.5, 3179.5, 3629.5, 4079.5, 4529.5] := by
    with_unfolding_all rfl
  rw [h]
  intro hEq
  have hL := congrArg List.length hEq
  simp at hL

set_option maxRecDepth 100000 in
/-- C4 amended: at bearer length 5200 the dimple rule (start 479.5, step
450, while at most length - 270.5) yields the 10-entry list ending 4529.5. -/
theorem bearer5200_dimples_ten :
    (generateBearerHoles initializeCalculations 5200 600 "No Holes"
        [331, 1531, 2731, 3931, 4869] true (some allStationsEnabled) false).dimples.map
      Punch.position =
      [479.5, 929.5, 1379.5, 1829.5, 2279.5, 2729.5, 3179.5, 3629.5, 4079.5, 4529.5] ∧
    ([479.5, 929.5, 1379.5, 1829.5, 2279.5, 2729.5, 3179.5, 3629.5, 4079.5,
      (4529.5 : ℚ)] : List ℚ).length = 10 :=
  ⟨by with_unfolding_all rfl, rfl⟩

set_option maxRecDepth 100000 in
/-- C9 counterexample: with stubs_enabled = false but the SERVICE station
enabled, the bearer normal planner still emits the corner brackets and the
accepted user stub position, so the claim that no stub punches appear when
stubs_enabled is false fails. -/
theorem bearerNormal_stubs_despite_disabled :
    (generateBearerHoles initializeCalculations 1200 600 "No Holes" [331] false
        (some allStationsEnabled) false).stubs.map Punch.position = [131, 1069, 331] ∧
    ([131, 1069, 331] : List ℚ) ≠ [] :=
  ⟨by with_unfolding_all rfl, by simp⟩

/-- C9 amended: in bearer normal mode the stub punches (corner brackets at
131 and length - 131 plus the user stub positions accepted iff strictly
inside the member) are emitted iff the SERVICE punch station is enabled;
the stubs_enabled flag plays no role at all. -/
theorem bearerNormal_stubs_characterisation (c : NCCalculations) (len js : ℚ) (ht : String)
    (sp : List ℚ) (se : Bool) (st : Option (List PunchStationSettings)) :
    ((generateBearerHoles c len js ht sp se st false).stubs =
      c.stubs ++
      (if isStationEnabled st "SERVICE" = true then
        [mkPunch 131 .service, mkPunch (len - 131) .service] ++
        sp.filterMap (fun pos =>
          if 0 < pos ∧ pos < len then some (mkPunch pos .service) else none)
      else [])) ∧
    ∀ se2 : Bool,
      generateBearerHoles c len js ht sp se st false =
        generateBearerHoles c len js ht sp se2 st false :=
  ⟨gbh_normal_stubs c len js ht sp se st, fun _ => rfl⟩

/-- Right-fold concatenation of the punch field strings. -/
def concatFields : List String → String
  | [] => ""
  | s :: rest => s ++ concatFields rest

lemma foldl_append_concatFields {α : Type} (f : α → String) (l : List α) (s : String) :
    l.foldl (fun acc x => acc ++ f x) s = s ++ concatFields (l.map f) := by
  induction l generalizing s with
  | nil => simp [concatFields]
  | cons a t ih =>
    rw [List.foldl_cons, ih, List.map_cons, concatFields, String.append_assoc]

lemma filter_orderedInsert_position (key : ℚ) (x : Punch) (l : List Punch) :
    (List.orderedInsert posLe x l).filter (fun p => p.position == key) =
      (if x.position = key then x :: l.filter (fun p => p.position == key)
       else l.filter (fun p => p.position == key)) := by
  induction l with
  | nil =>
    by_cases hx : x.position = key
    · simp [List.orderedInsert, List.filter_cons, hx]
    · simp [List.orderedInsert, List.filter_cons, hx, beq_eq_false_iff_ne.mpr hx]
  | cons b t ih =>
    rw [List.orderedInsert]
    by_cases hxb : posLe x b
    · rw [if_pos hxb]
      by_cases hx : x.position = key
      · simp [hx, List.filter_cons, beq_iff_eq]
      · simp [hx, List.filter_cons, beq_iff_eq]
    · rw [if_neg hxb]
      have hb : b.position < x.position := lt_of_not_le hxb
      by_cases hbk : b.position = key
      · have hx : ¬ x.position = key := by
          intro hx
          rw [hx] at hb
          rw [hbk] at hb
          exact lt_irrefl _ hb
        simp [List.filter_cons, hbk, ih, hx, beq_iff_eq]
      · simp [List.filter_cons, hbk, ih, beq_iff_eq]

lemma filter_insertionSort_position (key : ℚ) (l : List Punch) :
    (List.insertionSort posLe l).filter (fun p => p.position == key) =
      l.filter (fun p => p.position == key) := by
  induction l with
  | nil => rfl
  | cons x t ih =>
    rw [List.insertionSort, filter_orderedInsert_position, List.filter_cons]
    by_cases hx : x.position = key
    · simp [hx, ih, beq_iff_eq]
    · simp [hx, ih, beq_iff_eq]

/-- C6 amended: the CSV encoder emits the csvCOMPONENT header with component
code B1-1 iff the part code begins with B, followed by the active punches of
all five lists merged and stably sorted by position (ties kept in the
collection order bolt holes, web tabs, service holes, dimples, stubs), each
rounded via roundHalf, with CornerBrackets emitted as SERVICE. -/
theorem generateCSV_characterisation (g : GenState) :
    generateCSV g =
      csvHeader g ++ concatFields ((csvSortedPunches g.calculations).map csvPunchField) ∧
    csvHeader g =
      "csvCOMPONENT," ++ (if g.partCode.startsWith "B" then "B1-1" else "J1-1") ++ "," ++
        g.partCode ++ "," ++ (if g.partCode.startsWith "B" then "BEARER" else "JOIST") ++
        ",NORMAL," ++ toString g.quantity ++ "," ++ formatHalf (csvLength g.calculations) ++
        ",0,0," ++ formatHalf (csvLength g.calculations) ++ ",0,50" ∧
    ((csvSortedPunches g.calculations).map Punch.position).Sorted (· ≤ ·) ∧
    (∀ p ∈ csvSortedPunches g.calculations, p.active = true) ∧
    (∀ key : ℚ, (csvSortedPunches g.calculations).filter (fun p => p.position == key) =
      (csvActivePunches g.calculations).filter (fun p => p.position == key)) ∧
    stationExportName PunchStationType.cornerBrackets = "SERVICE" := by
  refine ⟨?_, ?_, ?_, ?_, ?_, rfl⟩
  · unfold generateCSV
    exact foldl_append_concatFields csvPunchField _ (csvHeader g)
  · unfold csvHeader
    by_cases hb : g.partCode.startsWith "B" = true
    · simp [hb]
    · simp [hb]
  · unfold csvSortedPunches sortPunches
    refine List.pairwise_map.mpr ?_
    exact List.sorted_insertionSort posLe _
  · intro p hp
    unfold csvSortedPunches sortPunches at hp
    have hmem : p ∈ csvActivePunches g.calculations :=
      (List.perm_insertionSort posLe _).subset hp
    unfold csvActivePunches at hmem
    simp only [List.mem_append, List.mem_filter] at hmem
    rcases hmem with ((((h | h) | h) | h) | h) <;> exact h.2
  · intro key
    unfold csvSortedPunches sortPunches
    exact filter_insertionSort_position key _

def csvTieCalc : NCCalculations :=
  { initializeCalculations with
    boltHoles := [⟨30, .boltHole, true⟩]
    webHoles := [⟨600, .webTab, true⟩]
    dimples := [⟨600, .dimple, true⟩]
    stubs := [⟨131, .cornerBrackets, true⟩, ⟨200, .service, false⟩]
    lengthMod := 1200, endExclusion := 0 }

def csvTieState : GenState :=
  { initGenState with calculations := csvTieCalc, partCode := "B_TEST", quantity := 2 }

set_option maxRecDepth 100000 in
/-- C6 counterexample: a web tab and a dimple tied at position 600 are
emitted web tab first (collection order), not dimple first as the claimed
flange-before-web tie order requires. -/
theorem generateCSV_tie_order :
    generateCSV csvTieState =
      "csvCOMPONENT,B1-1,B_TEST,BEARER,NORMAL,2,1200,0,0,1200,0,50,BOLT HOLE,30,SERVICE,131,WEB TAB,600,DIMPLE,600" ∧
    generateCSV csvTieState ≠
      "csvCOMPONENT,B1-1,B_TEST,BEARER,NORMAL,2,1200,0,0,1200,0,50,BOLT HOLE,30,SERVICE,131,DIMPLE,600,WEB TAB,600" := by
  have h : generateCSV csvTieState =
      "csvCOMPONENT,B1-1,B_TEST,BEARER,NORMAL,2,1200,0,0,1200,0,50,BOLT HOLE,30,SERVICE,131,WEB TAB,600,DIMPLE,600" := by
    with_unfolding_all rfl
  refine ⟨h, ?_⟩
  rw [h]
  decide

lemma ruleBoltEdge_type (c : NCCalculations) (L : ℚ) :
    ∀ i ∈ ruleBoltEdge c L, i.type = ClashType.clearance := by
  intro i hi
  unfold ruleBoltEdge at hi
  simp only [List.mem_flatten, List.mem_map] at hi
  obtain ⟨l, ⟨b, hb, rfl⟩, hil⟩ := hi
  split_ifs at hil <;> simp_all

lemma ruleWebTabEdge_type (c : NCCalculations) (L : ℚ) :
    ∀ i ∈ ruleWebTabEdge c L, i.type = ClashType.clearance := by
  intro i hi
  unfold ruleWebTabEdge at hi
  simp only [List.mem_flatten, List.mem_map] at hi
  obtain ⟨l, ⟨b, hb, rfl⟩, hil⟩ := hi
  split_ifs at hil <;> simp_all

lemma ruleServiceEdge_type (c : NCCalculations) (L : ℚ) :
    ∀ i ∈ ruleServiceEdge c L, i.type = ClashType.clearance := by
  intro i hi
  unfold ruleServiceEdge at hi
  simp only [List.mem_flatten, List.mem_map] at hi
  obtain ⟨l, ⟨b, hb, rfl⟩, hil⟩ := hi
  split_ifs at hil <;> simp_all

lemma ruleWebTabService_type (c : NCCalculations) :
    ∀ i ∈ ruleWebTabService c, i.type = ClashType.clearance := by
  intro i hi
  unfold ruleWebTabService at hi
  simp only [List.mem_flatten, List.mem_map] at hi
  obtain ⟨l, ⟨w, hw, rfl⟩, hil⟩ := hi
  split_ifs at hil
  · simp at hil
  · simp only [List.mem_flatten, List.mem_map] at hil
    obtain ⟨l2, ⟨s, hs, rfl⟩, hil2⟩ := hil
    split_ifs at hil2 <;> simp_all

lemma ruleStubService_type (c : NCCalculations) :
    ∀ i ∈ ruleStubService c, i.type = ClashType.clearance := by
  intro i hi
  unfold ruleStubService at hi
  simp only [List.mem_flatten, List.mem_map] at hi
  obtain ⟨l, ⟨w, hw, rfl⟩, hil⟩ := hi
  split_ifs at hil
  · simp at hil
  · simp only [List.mem_flatten, List.mem_map] at hil
    obtain ⟨l2, ⟨s, hs, rfl⟩, hil2⟩ := hil
    split_ifs at hil2 <;> simp_all

lemma ruleFlangeConflict_type (c : NCCalculations) :
    ∀ i ∈ ruleFlangeConflict c, i.type = ClashType.clearance := by
  intro i hi
  unfold ruleFlangeConflict at hi
  simp only [List.mem_flatten, List.mem_map] at hi
  obtain ⟨l, ⟨w, hw, rfl⟩, hil⟩ := hi
  split_ifs at hil
  · simp at hil
  · simp only [List.mem_flatten, List.mem_map] at hil
    obtain ⟨l2, ⟨s, hs, rfl⟩, hil2⟩ := hil
    split_ifs at hil2 <;> simp_all

lemma ruleDimpleGrid_type (c : NCCalculations) (p : ProfileData) :
    ∀ i ∈ ruleDimpleGrid c p, i.type = ClashType.positionConflict := by
  intro i hi
  unfold ruleDimpleGrid at hi
  simp only [List.mem_filterMap] at hi
  obtain ⟨a, ha, hfa⟩ := hi
  split_ifs at hfa <;> (try (rw [Option.some.injEq] at hfa; subst hfa)) <;> simp_all

lemma ruleJoistSpan_type (p : ProfileData) :
    ∀ i ∈ ruleJoistSpan p, i.type = ClashType.spanLimit := by
  intro i hi
  unfold ruleJoistSpan at hi
  rcases hk : p.kpaRating with - | kpa <;> rw [hk] at hi
  · simp at hi
  · dsimp only at hi
    split_ifs at hi <;> simp_all

lemma ruleBearerSpan_type (p : ProfileData) :
    ∀ i ∈ ruleBearerSpan p, i.type = ClashType.spanLimit := by
  intro i hi
  unfold ruleBearerSpan at hi
  rcases hk : p.kpaRating with - | kpa <;> rw [hk] at hi
  · simp at hi
  · dsimp only at hi
    split_ifs at hi
    · rcases hj : p.joistLength with - | jl <;> rw [hj] at hi
      · simp at hi
      · dsimp only at hi
        split_ifs at hi <;> simp_all
    · simp at hi

lemma ruleWebTabSpacing_type (c : NCCalculations) (p : ProfileData) :
    ∀ i ∈ ruleWebTabSpacing c p, i.type = ClashType.clearance := by
  intro i hi
  unfold ruleWebTabSpacing at hi
  simp only [List.mem_filterMap] at hi
  obtain ⟨a, ha, hfa⟩ := hi
  split_ifs at hfa <;> (try (rw [Option.some.injEq] at hfa; subst hfa)) <;> simp_all

lemma ruleServiceSpacing_type (c : NCCalculations) (p : ProfileData) (L : ℚ) :
    ∀ i ∈ ruleServiceSpacing c p L, i.type = ClashType.positionConflict := by
  intro i hi
  simp only [ruleServiceSpacing] at hi
  split_ifs at hi
  · simp only [List.mem_filterMap] at hi
    obtain ⟨a, ha, hfa⟩ := hi
    split_ifs at hfa <;> (try (rw [Option.some.injEq] at hfa; subst hfa)) <;> simp_all
  · simp at hi
  · simp at hi
lemma facePairIssue_type (a b : Punch) :
    ∀ i ∈ facePairIssue a b, i.type = ClashType.overlap := by
  intro i hi
  unfold facePairIssue at hi
  split_ifs at hi <;> simp_all

lemma facePairScan_type (l : List Punch) :
    ∀ i ∈ facePairScan l, i.type = ClashType.overlap := by
  induction l with
  | nil => intro i hi; simp [facePairScan] at hi
  | cons a t ih =>
    intro i hi
    rw [facePairScan] at hi
    rcases List.mem_append.mp hi with h | h
    · split_ifs at h
      · simp at h
      · simp only [List.mem_flatten, List.mem_map] at h
        obtain ⟨l2, ⟨b, hb, rfl⟩, hil⟩ := h
        exact facePairIssue_type a b i hil
    · exact ih i h

lemma bearerAlignmentIssues_shape (c : NCCalculations) (p : ProfileData) :
    ∀ i ∈ bearerAlignmentIssues c p,
      i.type = ClashType.alignment ∧ i.severity = ClashSeverity.warning := by
  intro i hi
  unfold bearerAlignmentIssues at hi
  split_ifs at hi
  · simp only [List.mem_filterMap] at hi
    obtain ⟨a, ha, hfa⟩ := hi
    split_ifs at hfa <;> (try (rw [Option.some.injEq] at hfa; subst hfa)) <;> simp_all
  · simp at hi

lemma filterAlign_nil {l : List ClashIssue}
    (h : ∀ i ∈ l, ¬ i.type = ClashType.alignment) :
    l.filter (fun i => i.type == ClashType.alignment) = [] :=
  List.filter_eq_nil_iff.mpr (fun a ha => by simpa using h a ha)

/-- C7 amended: the alignment diagnostics of detectClashes are exactly two
copies of the per-pass list (the source duplicates the bearer alignment
block at its sections 3 and 5), and every alignment diagnostic is a
Warning; no other rule produces alignment-typed diagnostics. -/
theorem detectClashes_alignment_two_passes (c : NCCalculations) (p : ProfileData) :
    ((detectClashes c p).issues.filter (fun i => i.type == ClashType.alignment)) =
      bearerAlignmentIssues c p ++ bearerAlignmentIssues c p ∧
    (∀ i ∈ bearerAlignmentIssues c p,
      i.type = ClashType.alignment ∧ i.severity = ClashSeverity.warning) := by
  refine ⟨?_, bearerAlignmentIssues_shape c p⟩
  simp only [detectClashes]
  simp only [List.filter_append]
  rw [filterAlign_nil (fun i hi => by simp [ruleBoltEdge_type c _ i hi]),
      filterAlign_nil (fun i hi => by simp [ruleWebTabEdge_type c _ i hi]),
      filterAlign_nil (fun i hi => by simp [ruleServiceEdge_type c _ i hi]),
      filterAlign_nil (fun i hi => by simp [ruleWebTabService_type c i hi]),
      filterAlign_nil (fun i hi => by simp [ruleStubService_type c i hi]),
      List.filter_eq_self.mpr
        (fun a ha => by simp [(bearerAlignmentIssues_shape c p a ha).1]),
      filterAlign_nil (fun i hi => by simp [ruleFlangeConflict_type c i hi]),
      filterAlign_nil (fun i hi => by simp [ruleDimpleGrid_type c p i hi]),
      filterAlign_nil (fun i hi => by simp [ruleJoistSpan_type p i hi]),
      filterAlign_nil (fun i hi => by simp [ruleBearerSpan_type p i hi]),
      filterAlign_nil (fun i hi => by simp [ruleWebTabSpacing_type c p i hi]),
      filterAlign_nil (fun i hi => by simp [ruleServiceSpacing_type c p _ i hi]),
      filterAlign_nil (fun i hi => by simp [facePairScan_type _ i hi])]
  simp

def alignExampleCalc : NCCalculations :=
  { initializeCalculations with
    webHoles := [⟨600, .webTab, true⟩], lengthMod := 1200, endExclusion := 0 }

def alignExampleProfile : ProfileData :=
  { profileType := "Bearer Single", profileHeight := 200, length := 1200, joistLength := none
    joistSpacing := 600, stubSpacing := 1200, stubPositions := [], stubsEnabled := false
    holeType := "No Holes", holeSpacing := 650, punchStations := allStationsEnabled
    endBoxJoist := false, screensEnabled := false, joistBox := false, kpaRating := none }

set_option maxRecDepth 100000 in
/-- C7 counterexample: a bearer layout with one active web tab and no bolts
receives two alignment warnings, not the one per missing web tab the claim
asserts. -/
theorem detectClashes_duplicate_alignment :
    ((detectClashes alignExampleCalc alignExampleProfile).issues.filter
        (fun i => i.type == ClashType.alignment)).length = 2 ∧ (2 : ℕ) ≠ 1 := by
  have h : (detectClashes alignExampleCalc alignExampleProfile).issues =
      [⟨ClashType.alignment, some 600, ClashSeverity.warning⟩,
       ⟨ClashType.alignment, some 600, ClashSeverity.warning⟩] := by
    with_unfolding_all rfl
  rw [h]
  exact ⟨rfl, by decide⟩
